import Mathlib

/-!
# oxylabs-sdk-go: request defaults, URL validation and the asynchronous poll loop

A shallow embedding of

* `ecommerce/defaults.go`   (`SetDefault*`),
* `internal/utils.go`       (`ValidateURL`),
* `serp/google_async.go`    (`ScrapeGoogleSearch`, `ScrapeGoogleUrl`),

followed by theorems about them.  Go `error` values are kept as a tagged value
(`Err`) naming the statement that built them, with `Err.message` giving the
text `fmt.Errorf` produces.  Channels are modelled by their open/closed state
and the program's channel operations are recorded in a trace.
-/

namespace Oxylabs

/-! ## Values, context maps, defaults (`ecommerce/defaults.go`) -/

/-- A Go `interface{}` value as stored in a context map. -/
inductive Value where
  | nil
  | str (s : String)
  | int (n : Int)
  | bool (b : Bool)
  deriving DecidableEq, Repr

/-- The type `ContextOption` is `map[string]interface{}`; a lookup of an absent key
yields the nil interface value. -/
abbrev ContextOption := String → Value

/-- The empty map, `make(ContextOption)`. -/
def ContextOption.empty : ContextOption := fun _ => Value.nil

/-- Assignment `ctx[k] = v`. -/
def ContextOption.set (ctx : ContextOption) (k : String) (v : Value) : ContextOption :=
  fun k' => if k' = k then v else ctx k'

/-- Modelled from the spec: the constant `oxylabs.DOMAIN_COM` (package `oxylabs`
is not among the sources); the spec gives the default domain as "com". -/
def DOMAIN_COM : String := "com"

/-- Modelled from the spec: the constant `oxylabs.UA_DESKTOP` (package `oxylabs`
is not among the sources); the spec gives the default user agent as desktop. -/
def UA_DESKTOP : String := "desktop"

/-- Go `SetDefaultSortBy`: `if ctx["sort_by"] == "" { ctx["sort_by"] = "r" }`.
The comparison of an interface value with the string constant holds only for
a value of dynamic type string that is empty. -/
def SetDefaultSortBy (ctx : ContextOption) : ContextOption :=
  if ctx "sort_by" = Value.str "" then ctx.set "sort_by" (Value.str "r") else ctx

/-- Go `SetDefaultDomain`, as a function from the pointee before to the pointee after. -/
def SetDefaultDomain (domain : String) : String :=
  if domain = "" then DOMAIN_COM else domain

/-- Go `SetDefaultStartPage`: the zero value is replaced by the default. -/
def SetDefaultStartPage (startPage : Int) : Int :=
  if startPage = 0 then 1 else startPage

/-- Go `SetDefaultPages`: the zero value is replaced by the default. -/
def SetDefaultPages (pages : Int) : Int :=
  if pages = 0 then 1 else pages

/-- Go `SetDefaultLimit`: the zero value is replaced by the default. -/
def SetDefaultLimit (limit : Int) : Int :=
  if limit = 0 then 48 else limit

/-- Go `SetDefaultUserAgent`: the zero value is replaced by the default. -/
def SetDefaultUserAgent (userAgent : String) : String :=
  if userAgent = "" then UA_DESKTOP else userAgent

/-! ## Errors -/

/-- The errors built in the three source files, one constructor per
`fmt.Errorf` site (or pass-through of a callee's error). -/
inductive Err where
  /-- From `ValidateURL`: "url parameter is empty". -/
  | urlEmpty
  /-- From `ValidateURL`: "failed to parse URL: %v". -/
  | urlParse (e : String)
  /-- From `ValidateURL`: "URL is missing scheme". -/
  | urlNoScheme
  /-- From `ValidateURL`: "URL is missing a host". -/
  | urlNoHost
  /-- From `ValidateURL`: "URL does not belong to %s". -/
  | urlWrongHost (host : String)
  /-- From `ScrapeGoogleSearch`, the limit_per_page guard. -/
  | limitPerPageConflict
  /-- The error returned by `opt.checkParameterValidity`. -/
  | invalidParameter (e : String)
  /-- Text "error marshalling payload: %v". -/
  | marshal (e : String)
  /-- The error of `c.HttpClient.Do`, passed on unchanged. -/
  | transport (e : String)
  /-- Text "error reading response body: %v". -/
  | readBody (e : String)
  /-- Text "error with status code %s: %s". -/
  | statusCode (status : String) (body : String)
  /-- Text "failed to parse JSON object: %v". -/
  | parseJSON (e : String)
  /-- Text "There was an error processing your query". -/
  | faulted
  /-- Text "timeout exceeded: %v", with the rendered duration. -/
  | timeout (budget : String)
  deriving DecidableEq, Repr

/-- The text of an error (`err.Error()`). -/
def Err.message : Err → String
  | .urlEmpty => "url parameter is empty"
  | .urlParse e => "failed to parse URL: " ++ e
  | .urlNoScheme => "URL is missing scheme"
  | .urlNoHost => "URL is missing a host"
  | .urlWrongHost host => "URL does not belong to " ++ host
  | .limitPerPageConflict =>
      "limit, start_page and pages parameters cannot be used together with limit_per_page context parameter"
  | .invalidParameter e => e
  | .marshal e => "error marshalling payload: " ++ e
  | .transport e => e
  | .readBody e => "error reading response body: " ++ e
  | .statusCode status body => "error with status code " ++ status ++ ": " ++ body
  | .parseJSON e => "failed to parse JSON object: " ++ e
  | .faulted => "There was an error processing your query"
  | .timeout budget => "timeout exceeded: " ++ budget

/-! ## URL validation (`internal/utils.go`) -/

/-- The two fields of `url.URL` that `ValidateURL` reads. -/
structure URL where
  Scheme : String
  Host : String
  deriving DecidableEq, Repr

/-- Go `strings.HasPrefix` on character lists. -/
def startsWith : List Char → List Char → Bool
  | _, [] => true
  | [], _ :: _ => false
  | c :: cs, d :: ds => c == d && startsWith cs ds

/-- Go `strings.Contains` on character lists: some suffix of `s` starts with `sub`. -/
def containsChars : List Char → List Char → Bool
  | [], sub => sub.isEmpty
  | c :: cs, sub => startsWith (c :: cs) sub || containsChars cs sub

/-- Go `strings.Contains(s, sub)`. -/
def strContains (s sub : String) : Bool := containsChars s.data sub.data

/-- Go `ValidateURL(inputURL, host)`; `none` is the nil error.  The standard
library's `url.ParseRequestURI` is the parameter `parse`. -/
def ValidateURL (parse : String → Except String URL) (inputURL host : String) : Option Err :=
  if inputURL = "" then some Err.urlEmpty
  else
    match parse inputURL with
    | .error e => some (Err.urlParse e)
    | .ok parsedURL =>
      if parsedURL.Scheme = "" then some Err.urlNoScheme
      else if parsedURL.Host = "" then some Err.urlNoHost
      else if !strContains parsedURL.Host host then some (Err.urlWrongHost host)
      else none

/-- Scheme scan of `net/url` (`getScheme`): letters extend the scheme, digits and
`+ - .` extend it except in first position, a colon ends it, anything else means
there is no scheme.  `seen` holds the characters already scanned, last first. -/
def getScheme (rawURL : List Char) : List Char → List Char → Except String (List Char × List Char)
  | _, [] => .ok ([], rawURL)
  | seen, c :: cs =>
    if c.isAlpha then getScheme rawURL (c :: seen) cs
    else if c.isDigit || c == '+' || c == '-' || c == '.' then
      if seen.isEmpty then .ok ([], rawURL) else getScheme rawURL (c :: seen) cs
    else if c == ':' then
      if seen.isEmpty then .error "missing protocol scheme" else .ok (seen.reverse, cs)
    else .ok ([], rawURL)

/-- The part of an authority after its last `@` (the host with its port). -/
def hostOfAuthority (authority : List Char) : List Char :=
  ((authority.reverse).takeWhile (fun c => c != '@')).reverse

/-- A model of the standard library's `url.ParseRequestURI` for plain URLs (no
percent escapes, no bracketed hosts; host and path characters are not
validated): control characters, the empty string and a rootless path without
scheme are rejected; the scheme is split off and lower-cased; the query is cut
at the first question mark; with a scheme, the authority runs from `//` to the
next slash. -/
def goParseRequestURI (rawURL : String) : Except String URL :=
  let raw := rawURL.data
  let fail := fun (msg : String) => Except.error ("parse " ++ rawURL.quote ++ ": " ++ msg)
  if raw.any (fun c => c.toNat < 32 || c.toNat == 127) then
    fail "net/url: invalid control character in URL"
  else if raw.isEmpty then fail "empty url"
  else if raw == ['*'] then .ok { Scheme := "", Host := "" }
  else
    match getScheme raw [] raw with
    | .error msg => fail msg
    | .ok (scheme, rest) =>
      let scheme := scheme.map Char.toLower
      let rest := rest.takeWhile (fun c => c != '?')
      if !startsWith rest ['/'] then
        if !scheme.isEmpty then .ok { Scheme := String.mk scheme, Host := "" }
        else fail "invalid URI for request"
      else if !scheme.isEmpty && startsWith rest ['/', '/'] then
        let authority := (rest.drop 2).takeWhile (fun c => c != '/')
        .ok { Scheme := String.mk scheme, Host := String.mk (hostOfAuthority authority) }
      else .ok { Scheme := String.mk scheme, Host := "" }

/-! ## Options, payloads, HTTP results (`serp/google_async.go`) -/

/-- The fields of `GoogleSearchOpts` that `ScrapeGoogleSearch` reads or writes.
`Context` is the list of context modifier functions. -/
structure GoogleSearchOpts where
  Domain : String
  StartPage : Int
  Pages : Int
  Limit : Int
  Geolocation : String
  UserAgent : String
  Parse : Bool
  Render : String
  Context : List (ContextOption → ContextOption)

/-- The zero struct `&GoogleSearchOpts{}`. -/
def GoogleSearchOpts.zero : GoogleSearchOpts :=
  { Domain := "", StartPage := 0, Pages := 0, Limit := 0, Geolocation := "",
    UserAgent := "", Parse := false, Render := "", Context := [] }

/-- The fields of `GoogleUrlOpts` that `ScrapeGoogleUrl` reads or writes. -/
structure GoogleUrlOpts where
  UserAgent : String
  Render : String
  CallbackUrl : String
  GeoLocation : String
  Parse : Bool
  deriving DecidableEq, Repr

/-- The zero struct `&GoogleUrlOpts{}`. -/
def GoogleUrlOpts.zero : GoogleUrlOpts :=
  { UserAgent := "", Render := "", CallbackUrl := "", GeoLocation := "", Parse := false }

/-- The payload map: its scalar entries in source order, and the list under
the key "context" when there is one (each element a key and a value). -/
structure Payload where
  fields : List (String × Value)
  context : Option (List (String × Value))
  deriving DecidableEq, Repr

/-- The payload of `ScrapeGoogleSearch`: with a non-nil limit_per_page the
entries start_page, pages and limit are left out and limit_per_page is passed
in the context list. -/
def searchPayload (query : String) (opt : GoogleSearchOpts) (context : ContextOption) : Payload :=
  if context "limit_per_page" ≠ Value.nil then
    { fields := [("source", .str "google_search"), ("domain", .str opt.Domain),
        ("query", .str query), ("geo_location", .str opt.Geolocation),
        ("user_agent_type", .str opt.UserAgent), ("parse", .bool opt.Parse),
        ("render", .str opt.Render)],
      context := some [("results_language", context "results_language"),
        ("filter", context "filter"), ("limit_per_page", context "limit_per_page"),
        ("nfpr", context "nfpr"), ("safe_search", context "safe_search"),
        ("fpstate", context "fpstate"), ("tbm", context "tbm"), ("tbs", context "tbs")] }
  else
    { fields := [("source", .str "google_search"), ("domain", .str opt.Domain),
        ("query", .str query), ("start_page", .int opt.StartPage), ("pages", .int opt.Pages),
        ("limit", .int opt.Limit), ("geo_location", .str opt.Geolocation),
        ("user_agent_type", .str opt.UserAgent), ("parse", .bool opt.Parse),
        ("render", .str opt.Render)],
      context := some [("results_language", context "results_language"),
        ("filter", context "filter"), ("nfpr", context "nfpr"),
        ("safe_search", context "safe_search"), ("fpstate", context "fpstate"),
        ("tbm", context "tbm"), ("tbs", context "tbs")] }

/-- The payload of `ScrapeGoogleUrl`. -/
def urlPayload (url : String) (opt : GoogleUrlOpts) : Payload :=
  { fields := [("source", .str "google"), ("url", .str url),
      ("user_agent_type", .str opt.UserAgent), ("render", .str opt.Render),
      ("callback_url", .str opt.CallbackUrl), ("geo_location", .str opt.GeoLocation),
      ("parse", .bool opt.Parse)],
    context := none }

/-- The struct `Job`: identifier and status. -/
structure Job where
  ID : String
  Status : String
  deriving DecidableEq, Repr

/-- What a response body holds for `json.Unmarshal(responseBody, &job)`: the
fields it sets; a field that is absent (or a body that is not JSON) leaves the
job's field as it was. -/
structure JobPatch where
  ID : Option String
  Status : Option String
  deriving DecidableEq, Repr

/-- A response body as `json.Unmarshal(responseBody, &job)` sees it, `job`
being a `*Job` and `&job` a `**Job`: the JSON value `null`, which sets the
pointer `job` to nil, or anything else, described by the fields it sets. -/
inductive JobBody where
  | null
  | object (fields : JobPatch)
  deriving DecidableEq, Repr

/-- Result of `json.Unmarshal(responseBody, &job)` on a body other than `null`,
for a non-nil `job`; its error is discarded by the code. -/
def Job.unmarshal (job : Job) (body : JobPatch) : Job :=
  { ID := body.ID.getD job.ID, Status := body.Status.getD job.Status }

/-- Outcome of one HTTP call, that is of `http.NewRequest`, `c.HttpClient.Do(request)`
and `io.ReadAll(response.Body)`.  With `noRequest`, `http.NewRequest` could not
build a request from the URL (it returns a nil request and an error, which the
code discards), and no call is made. -/
inductive HttpResult (β : Type) where
  | noRequest
  | transportErr (e : String)
  | readErr (e : String)
  | ok (response : β)
  deriving DecidableEq, Repr

/-- The text of the run-time panic raised by a nil pointer dereference. -/
def nilDereference : String :=
  "runtime error: invalid memory address or nil pointer dereference"

/-- The response of the results endpoint: status code, status line, raw body. -/
structure FetchResponse where
  StatusCode : Int
  Status : String
  Body : String
  deriving DecidableEq, Repr

/-- The struct `Response`: the decoded results with the HTTP status attached. -/
structure Response where
  StatusCode : Int
  Status : String
  Results : String
  deriving DecidableEq, Repr

/-- Everything outside the three source files: library and repository code
that is not among them, the server, the clock and the caller. -/
structure Env where
  /-- Standard library `url.ParseRequestURI`. -/
  parseRequestURI : String → Except String URL
  /-- Method `(*GoogleSearchOpts).checkParameterValidity(context)`. -/
  checkSearchParameters : GoogleSearchOpts → ContextOption → Option String
  /-- Method `(*GoogleUrlOpts).checkParameterValidity()`. -/
  checkUrlParameters : GoogleUrlOpts → Option String
  /-- Standard library `json.Marshal(payload)`. -/
  marshal : Payload → Except String String
  /-- The outcome of the submission `POST` with the given body. -/
  submit : String → HttpResult JobBody
  /-- The outcome of the `k`-th status poll (from 0). -/
  polls : Nat → HttpResult JobBody
  /-- The outcome of the `k`-th results fetch (from 0). -/
  fetches : Nat → HttpResult FetchResponse
  /-- Method `(*Response).UnmarshalJSON(responseBody)`. -/
  unmarshalResponse : String → Except String Response
  /-- The `k`-th evaluation (from 0) of `time.Since(startNow)`, in nanoseconds. -/
  elapsed : Nat → Int
  /-- Constant `oxylabs.DefaultTimeout`. -/
  DefaultTimeout : Int
  /-- Constant `oxylabs.DefaultWaitTime`. -/
  DefaultWaitTime : Int
  /-- Rendering of a duration by the `%v` verb. -/
  showDuration : Int → String
  /-- Whether the caller receives from the response channel it was given. -/
  callerReceives : Bool

/-! ## Channels and the poll goroutine -/

/-- How the entry point ends: it returns `(nil, err)` or `(responseChan, nil)`,
or it panics itself. -/
inductive Ret where
  | failure (e : Err)
  | channel
  | panic (msg : String)
  deriving DecidableEq, Repr

/-- An HTTP call or a completed channel operation or sleep of the program. -/
inductive Event where
  /-- The submission `POST` with the marshalled payload. -/
  | post (body : String)
  /-- A status poll, `GET /v1/queries/<id>`. -/
  | poll (jobID : String)
  /-- A results fetch, `GET /v1/queries/<id>/results`. -/
  | fetch (jobID : String)
  /-- Statement `errChan <- err`, received by the entry point. -/
  | sendErr (e : Err)
  /-- Statement `close(errChan)`. -/
  | closeErr
  /-- Statement `responseChan <- resp`, received by the caller. -/
  | sendResp (r : Response)
  /-- Statement `close(responseChan)`. -/
  | closeResp
  /-- Statement `time.Sleep(oxylabs.DefaultWaitTime)`. -/
  | sleep (d : Int)
  deriving DecidableEq, Repr

/-- How the goroutine ended: by `return`, by a run-time panic, or blocked for
ever on a channel send that nobody receives. -/
inductive Stop where
  | returned
  | panicked (msg : String)
  | blocked
  deriving DecidableEq, Repr

/-- State of one call: the job that the pointer `job` points to, the two
channels, what the entry point has returned (its single receive
`err = <-errChan` done), how many polls, fetches and clock readings were made,
and the events so far, oldest first.  The pointer `job` is nil only after a
body `null`; the goroutine dereferences it in its next statement and panics,
so no state with a nil job is kept. -/
structure PollState where
  job : Job
  errClosed : Bool
  errReceived : Bool
  respClosed : Bool
  ret : Option Ret
  polls : Nat
  fetches : Nat
  ticks : Nat
  trace : List Event
  deriving DecidableEq, Repr

/-- The result of a statement: the state after it and, when the goroutine ends
there, how. -/
abbrev Step := PollState × Option Stop

/-- Sequencing: run `k` unless the goroutine has ended. -/
def Step.andThen (r : Step) (k : PollState → Step) : Step :=
  match r.2 with
  | some stop => (r.1, some stop)
  | none => k r.1

/-- Statement `errChan <- err` on the unbuffered error channel, whose only
receive is the entry point's `err = <-errChan`: a send on a closed channel
panics, a send after that receive blocks for ever. -/
def sendErr (e : Err) (s : PollState) : Step :=
  if s.errClosed then (s, some (Stop.panicked "send on closed channel"))
  else if s.errReceived then (s, some Stop.blocked)
  else ({ s with errReceived := true, ret := some (Ret.failure e),
                 trace := s.trace ++ [Event.sendErr e] }, none)

/-- Statement `close(errChan)`: closing a closed channel panics; a pending
receive of the entry point yields nil, so it returns the response channel. -/
def closeErr (s : PollState) : Step :=
  if s.errClosed then (s, some (Stop.panicked "close of closed channel"))
  else ({ s with errClosed := true, errReceived := true,
                 ret := if s.errReceived then s.ret else some Ret.channel,
                 trace := s.trace ++ [Event.closeErr] }, none)

/-- Statement `responseChan <- resp` on the unbuffered response channel: only a
caller that was given the channel can receive. -/
def sendResp (env : Env) (r : Response) (s : PollState) : Step :=
  if s.respClosed then (s, some (Stop.panicked "send on closed channel"))
  else if s.ret = some Ret.channel ∧ env.callerReceives = true then
    ({ s with trace := s.trace ++ [Event.sendResp r] }, none)
  else (s, some Stop.blocked)

/-- Statement `close(responseChan)`. -/
def closeResp (s : PollState) : Step :=
  if s.respClosed then (s, some (Stop.panicked "close of closed channel"))
  else ({ s with respClosed := true, trace := s.trace ++ [Event.closeResp] }, none)

/-- The failure epilogue `errChan <- err; close(responseChan); return`. -/
def failWith (e : Err) (s : PollState) : Step :=
  (sendErr e s).andThen fun s => (closeResp s).andThen fun s => (s, some Stop.returned)

/-- The branch `if job.Status == "done"` (lines 201-246 and 368-413): fetch the
results, fail on a transport or read error, on a status code other than 200 and
on a decode error; otherwise close the error channel and send the response.
There is no `return` after the send.  When the request cannot be built,
`request.Header.Add` dereferences the nil request. -/
def doneBranch (env : Env) (s : PollState) : Step :=
  let s1 := { s with fetches := s.fetches + 1, trace := s.trace ++ [Event.fetch s.job.ID] }
  match env.fetches s.fetches with
  | .noRequest => (s, some (Stop.panicked nilDereference))
  | .transportErr e => failWith (Err.transport e) s1
  | .readErr e => failWith (Err.readBody e) s1
  | .ok response =>
    if response.StatusCode ≠ 200 then
      failWith (Err.statusCode response.Status response.Body) s1
    else
      match env.unmarshalResponse response.Body with
      | .error e => failWith (Err.parseJSON e) s1
      | .ok resp =>
        let resp := { resp with StatusCode := response.StatusCode, Status := response.Status }
        (closeErr s1).andThen fun s2 => sendResp env resp s2

/-- The timeout check and the sleep that end the loop body (lines 254-261 and
421-428). -/
def timeoutCheck (env : Env) (s : PollState) : Step :=
  let s' := { s with ticks := s.ticks + 1 }
  if env.elapsed s.ticks > env.DefaultTimeout then
    failWith (Err.timeout (env.showDuration env.DefaultTimeout)) s'
  else ({ s' with trace := s'.trace ++ [Event.sleep env.DefaultWaitTime] }, none)

/-- One run of the body of the `for` loop (lines 176-261 of `ScrapeGoogleSearch`,
and the identical lines 343-428 of `ScrapeGoogleUrl`).  When the request cannot
be built, `request.Header.Add` dereferences the nil request; after a body
`null` the pointer `job` is nil and `job.Status` dereferences it. -/
def iteration (env : Env) (s : PollState) : Step :=
  let s1 := { s with polls := s.polls + 1, trace := s.trace ++ [Event.poll s.job.ID] }
  match env.polls s.polls with
  | .noRequest => (s, some (Stop.panicked nilDereference))
  | .transportErr e => failWith (Err.transport e) s1
  | .readErr e => failWith (Err.readBody e) s1
  | .ok .null => (s1, some (Stop.panicked nilDereference))
  | .ok (.object body) =>
    let s2 := { s1 with job := s1.job.unmarshal body }
    let afterStatus : Step :=
      if s2.job.Status = "done" then doneBranch env s2
      else if s2.job.Status = "faulted" then failWith Err.faulted s2
      else (s2, none)
    afterStatus.andThen (timeoutCheck env)

/-- The `for` loop of the goroutine, run for at most `fuel` iterations; the
second component is `none` while the loop is still running. -/
def pollLoop (env : Env) : Nat → PollState → Step
  | 0, s => (s, none)
  | fuel + 1, s => (iteration env s).andThen (pollLoop env fuel)

/-- State in which the entry point has returned `(nil, err)` without starting
the goroutine, after the given events. -/
def PollState.rejected (e : Err) (trace : List Event) : PollState :=
  { job := { ID := "", Status := "" }, errClosed := false, errReceived := false,
    respClosed := false, ret := some (Ret.failure e), polls := 0, fetches := 0, ticks := 0,
    trace := trace }

/-- State in which the entry point has panicked without starting the
goroutine. -/
def PollState.entryPanicked (msg : String) : PollState :=
  { job := { ID := "", Status := "" }, errClosed := false, errReceived := false,
    respClosed := false, ret := some (Ret.panic msg), polls := 0, fetches := 0, ticks := 0,
    trace := [] }

/-- State at the start of the goroutine: both channels open, the entry point
waiting in `err = <-errChan`. -/
def PollState.start (job : Job) (trace : List Event) : PollState :=
  { job := job, errClosed := false, errReceived := false, respClosed := false, ret := none,
    polls := 0, fetches := 0, ticks := 0, trace := trace }

/-- A call of an entry point: the options struct after the call (the caller's
own struct when the caller passed one), the state reached and how the
goroutine ended (`none`: not started, or still running when the fuel ran out). -/
structure Run (Opts : Type) where
  opt : Opts
  state : PollState
  stop : Option Stop

/-- Submission and start of the goroutine (lines 145-263 and 312-430): marshal
the payload, `POST` it, decode the job from the answer, run the poll loop.
When the `POST` request cannot be built the entry point dereferences the nil
request; after an answer `null` the pointer `job` is nil and the goroutine
dereferences it in its first statement, before any poll. -/
def submitAndPoll (env : Env) (fuel : Nat) (payload : Payload) : Step :=
  match env.marshal payload with
  | .error e => (PollState.rejected (Err.marshal e) [], none)
  | .ok jsonPayload =>
    match env.submit jsonPayload with
    | .noRequest => (PollState.entryPanicked nilDereference, none)
    | .transportErr e => (PollState.rejected (Err.transport e) [Event.post jsonPayload], none)
    | .readErr e => (PollState.rejected (Err.readBody e) [Event.post jsonPayload], none)
    | .ok .null =>
      (PollState.start { ID := "", Status := "" } [Event.post jsonPayload],
        some (Stop.panicked nilDereference))
    | .ok (.object body) =>
      pollLoop env fuel
        (PollState.start (Job.unmarshal { ID := "", Status := "" } body) [Event.post jsonPayload])

/-- The options struct used by a call: the last variadic argument when there is
one and it is not nil, else a fresh zero struct. -/
def lastOpt {Opts : Type} (zero : Opts) (opts : List (Option Opts)) : Opts :=
  match opts.getLast? with
  | some (some o) => o
  | _ => zero

/-- The context map built from the modifiers, in order. -/
def buildContext (modifiers : List (ContextOption → ContextOption)) : ContextOption :=
  modifiers.foldl (fun context modifier => modifier context) ContextOption.empty

/-- The defaults written into the options struct (lines 40-44). -/
def setSearchDefaults (opt : GoogleSearchOpts) : GoogleSearchOpts :=
  { opt with Domain := SetDefaultDomain opt.Domain,
             StartPage := SetDefaultStartPage opt.StartPage,
             Limit := SetDefaultLimit opt.Limit,
             Pages := SetDefaultPages opt.Pages,
             UserAgent := SetDefaultUserAgent opt.UserAgent }

/-- Go `ScrapeGoogleSearch(query, opts...)`. -/
def ScrapeGoogleSearch (env : Env) (fuel : Nat) (query : String)
    (opts : List (Option GoogleSearchOpts)) : Run GoogleSearchOpts :=
  let opt := lastOpt GoogleSearchOpts.zero opts
  let context := buildContext opt.Context
  if (opt.Limit ≠ 0 ∨ opt.StartPage ≠ 0 ∨ opt.Pages ≠ 0) ∧ context "limit_per_page" ≠ Value.nil then
    { opt := opt, state := PollState.rejected Err.limitPerPageConflict [], stop := none }
  else
    let opt := setSearchDefaults opt
    match env.checkSearchParameters opt context with
    | some e => { opt := opt, state := PollState.rejected (Err.invalidParameter e) [], stop := none }
    | none =>
      let r := submitAndPoll env fuel (searchPayload query opt context)
      { opt := opt, state := r.1, stop := r.2 }

/-- Go `ScrapeGoogleUrl(url, opts...)`. -/
def ScrapeGoogleUrl (env : Env) (fuel : Nat) (url : String)
    (opts : List (Option GoogleUrlOpts)) : Run GoogleUrlOpts :=
  match ValidateURL env.parseRequestURI url "google" with
  | some e =>
    { opt := lastOpt GoogleUrlOpts.zero opts, state := PollState.rejected e [], stop := none }
  | none =>
    let opt := lastOpt GoogleUrlOpts.zero opts
    let opt := { opt with UserAgent := SetDefaultUserAgent opt.UserAgent }
    match env.checkUrlParameters opt with
    | some e => { opt := opt, state := PollState.rejected (Err.invalidParameter e) [], stop := none }
    | none =>
      let r := submitAndPoll env fuel (urlPayload url opt)
      { opt := opt, state := r.1, stop := r.2 }

/-! ## Environments and inputs used in the concrete instances -/

/-- A server on which job "7" is pending for two polls and done from the third
on, whose results endpoint answers 200, with a clock that advances two units
per reading and a caller that receives the response. -/
def demoEnv : Env :=
  { parseRequestURI := goParseRequestURI
    checkSearchParameters := fun _ _ => none
    checkUrlParameters := fun _ => none
    marshal := fun _ => .ok "payload"
    submit := fun _ => .ok (.object { ID := some "7", Status := some "pending" })
    polls := fun k =>
      .ok (.object { ID := some "7", Status := some (if k < 2 then "pending" else "done") })
    fetches := fun _ => .ok { StatusCode := 200, Status := "200 OK", Body := "results" }
    unmarshalResponse := fun b => .ok { StatusCode := 0, Status := "", Results := b }
    elapsed := fun k => 2 * (k + 1)
    DefaultTimeout := 50
    DefaultWaitTime := 2
    showDuration := fun d => toString d
    callerReceives := true }

/-- A context modifier that sets limit_per_page to 10. -/
def limitPerPage10 : ContextOption → ContextOption :=
  fun context => context.set "limit_per_page" (Value.int 10)

/-- Options with Pages = 2 and a limit_per_page modifier. -/
def pagesTwoWithLimitPerPage : GoogleSearchOpts :=
  { GoogleSearchOpts.zero with Pages := 2, Context := [limitPerPage10] }

/-- Options with every pagination field zero and a limit_per_page modifier. -/
def onlyLimitPerPage : GoogleSearchOpts :=
  { GoogleSearchOpts.zero with Context := [limitPerPage10] }

/-- Options in which no defaulted field is zero. -/
def fullOpts : GoogleSearchOpts :=
  { Domain := "de", StartPage := 2, Pages := 3, Limit := 10, Geolocation := "",
    UserAgent := "mobile", Parse := true, Render := "", Context := [] }

/-- Whether an event is a send or a close on one of the two channels. -/
def Event.isChannelOp : Event → Bool
  | .sendErr _ => true
  | .closeErr => true
  | .sendResp _ => true
  | .closeResp => true
  | _ => false

/-- The channel operations of a trace, in order. -/
def chanOps (trace : List Event) : List Event := trace.filter Event.isChannelOp

/-- No terminal event has happened: both channels are open and the entry point
is still waiting in its receive. -/
def PollState.Fresh (s : PollState) : Prop :=
  s.errClosed = false ∧ s.errReceived = false ∧ s.respClosed = false ∧ s.ret = none

/-- The success path has been taken: the error channel is closed, the entry
point has returned the response channel, which is open. -/
def PollState.Succeeded (s : PollState) : Prop :=
  s.errClosed = true ∧ s.respClosed = false ∧ s.ret = some Ret.channel

/-- As `demoEnv`, but the first poll already reports "faulted". -/
def faultedEnv : Env :=
  { demoEnv with polls := fun _ => .ok (.object { ID := none, Status := some "faulted" }) }

/-- As `demoEnv`, but the job is done at the first poll and the results
endpoint answers 500. -/
def status500Env : Env :=
  { demoEnv with
      polls := fun _ => .ok (.object { ID := none, Status := some "done" })
      fetches := fun _ => .ok { StatusCode := 500, Status := "500 Internal Server Error",
                                Body := "oops" } }

/-- The job as the goroutine holds it after the first `k` polls were answered. -/
def jobAt (env : Env) (job : Job) : Nat → Job
  | 0 => job
  | k + 1 =>
    match env.polls k with
    | .ok (.object body) => (jobAt env job k).unmarshal body
    | _ => jobAt env job k

/-- The events of `k` iterations that each poll and then sleep. -/
def pendingTrace (env : Env) (job : Job) : Nat → List Event
  | 0 => []
  | k + 1 => pendingTrace env job k
      ++ [Event.poll (jobAt env job k).ID, Event.sleep env.DefaultWaitTime]

/-- The loop state after `k` iterations that each polled and then slept, from
the start state with the given job and earlier events. -/
def pendingState (env : Env) (job : Job) (trace : List Event) (k : Nat) : PollState :=
  { job := jobAt env job k, errClosed := false, errReceived := false, respClosed := false,
    ret := none, polls := k, fetches := 0, ticks := k,
    trace := trace ++ pendingTrace env job k }

/-- The loop is running and no terminal event has happened: the channel
operations are those of the earlier events, `n` clock readings were made and
all were within the budget. -/
def Running (env : Env) (trace0 : List Event) (n : Nat) (s : PollState) : Prop :=
  s.Fresh ∧ chanOps s.trace = chanOps trace0 ∧ s.ticks = n
    ∧ ∀ i, i < n → env.elapsed i ≤ env.DefaultTimeout

/-- The failure path with error `e` was taken: the channel operations since
`trace0` are the send of `e`, received by the entry point, which returns it,
and then the close of the response channel; the goroutine has returned and the
error channel is still open. -/
def FailedWith (trace0 : List Event) (e : Err) (r : Step) : Prop :=
  r.2 = some Stop.returned
    ∧ chanOps r.1.trace = chanOps trace0 ++ [Event.sendErr e, Event.closeResp]
    ∧ r.1.ret = some (Ret.failure e) ∧ r.1.errClosed = false ∧ r.1.respClosed = true

/-- Some failure path was taken. -/
def Failed (trace0 : List Event) (r : Step) : Prop :=
  ∃ e, FailedWith trace0 e r

/-- The success path was taken with value `resp` and the caller received it:
the channel operations since `trace0` are the close of the error channel and
then the send of `resp`; the entry point has returned the response channel,
which is open. -/
def DeliveredAs (trace0 : List Event) (resp : Response) (s : PollState) : Prop :=
  chanOps s.trace = chanOps trace0 ++ [Event.closeErr, Event.sendResp resp]
    ∧ s.ret = some Ret.channel ∧ s.errClosed = true ∧ s.respClosed = false

/-- The success path was taken and the caller received the value: the error
channel was closed, then one value was sent; the response channel is open. -/
def Delivered (trace0 : List Event) (s : PollState) : Prop :=
  s.Succeeded ∧ ∃ resp, chanOps s.trace = chanOps trace0 ++ [Event.closeErr, Event.sendResp resp]

/-- The success path was taken but the caller does not receive: the error
channel was closed and the goroutine is blocked in the send of the value. -/
def Unreceived (env : Env) (trace0 : List Event) (r : Step) : Prop :=
  r.2 = some Stop.blocked ∧ env.callerReceives = false ∧ r.1.Succeeded
    ∧ chanOps r.1.trace = chanOps trace0 ++ [Event.closeErr]

/-- As `demoEnv`, but every poll is answered with a body that carries neither
an identifier nor a status; the clock passes the budget of 50 at its reading
number 25. -/
def silentEnv : Env :=
  { demoEnv with polls := fun _ => .ok (.object { ID := none, Status := none }) }

/-- As `silentEnv`, but the submission is answered with status "done". -/
def staleEnv : Env :=
  { silentEnv with submit := fun _ => .ok (.object { ID := some "7", Status := some "done" }) }

/-- The entry point has not returned the error `c`. -/
def neverReturns (c : Err) (s : PollState) : Prop := s.ret ≠ some (Ret.failure c)

/-! ## Helper lemmas -/

theorem startsWith_iff (s p : List Char) : startsWith s p = true ↔ p <+: s := by
  induction s generalizing p with
  | nil => cases p <;> simp [startsWith]
  | cons c cs ih =>
    cases p with
    | nil => simp [startsWith]
    | cons d ds =>
      simp only [startsWith, Bool.and_eq_true, beq_iff_eq, ih, List.cons_prefix_cons]
      constructor
      · rintro ⟨h1, h2⟩; exact ⟨h1.symm, h2⟩
      · rintro ⟨h1, h2⟩; exact ⟨h1.symm, h2⟩

theorem containsChars_iff (s sub : List Char) : containsChars s sub = true ↔ sub <:+: s := by
  induction s with
  | nil => cases sub <;> simp [containsChars]
  | cons c cs ih =>
    simp only [containsChars, Bool.or_eq_true, startsWith_iff, ih, List.infix_cons_iff]

theorem strContains_iff (s sub : String) : strContains s sub = true ↔ sub.data <:+: s.data :=
  containsChars_iff s.data sub.data

@[simp] theorem Step.andThen_none (s : PollState) (k : PollState → Step) :
    Step.andThen (s, none) k = k s := rfl

@[simp] theorem Step.andThen_some (s : PollState) (stop : Stop) (k : PollState → Step) :
    Step.andThen (s, some stop) k = (s, some stop) := rfl

/-- A property of the state that holds after `r` and is kept by `k` holds after both. -/
theorem Step.andThen_state {P : PollState → Prop} (r : Step) (k : PollState → Step)
    (hr : P r.1) (hk : ∀ s, P s → P (k s).1) : P (r.andThen k).1 := by
  obtain ⟨s, stop⟩ := r
  cases stop with
  | none => exact hk s hr
  | some stop => exact hr

theorem sendErr_neverReturns {c e : Err} (hne : e ≠ c) (s : PollState)
    (h : neverReturns c s) : neverReturns c (sendErr e s).1 := by
  unfold sendErr
  split
  · exact h
  · split
    · exact h
    · simp only [neverReturns, ne_eq, Option.some.injEq, Ret.failure.injEq]
      exact hne

theorem closeErr_neverReturns {c : Err} (s : PollState)
    (h : neverReturns c s) : neverReturns c (closeErr s).1 := by
  unfold closeErr
  split
  · exact h
  · simp only [neverReturns]
    split
    · exact h
    · simp

theorem closeResp_neverReturns {c : Err} (s : PollState)
    (h : neverReturns c s) : neverReturns c (closeResp s).1 := by
  unfold closeResp
  split <;> exact h

theorem sendResp_neverReturns {c : Err} (env : Env) (r : Response) (s : PollState)
    (h : neverReturns c s) : neverReturns c (sendResp env r s).1 := by
  unfold sendResp
  split
  · exact h
  · split <;> exact h

theorem failWith_neverReturns {c e : Err} (hne : e ≠ c) (s : PollState)
    (h : neverReturns c s) : neverReturns c (failWith e s).1 := by
  unfold failWith
  refine Step.andThen_state _ _ (sendErr_neverReturns hne s h) fun s1 h1 => ?_
  exact Step.andThen_state _ _ (closeResp_neverReturns s1 h1) fun s2 h2 => h2

theorem doneBranch_neverReturns (env : Env) (s : PollState)
    (h : neverReturns Err.limitPerPageConflict s) :
    neverReturns Err.limitPerPageConflict (doneBranch env s).1 := by
  have h1 : neverReturns Err.limitPerPageConflict
      { s with fetches := s.fetches + 1, trace := s.trace ++ [Event.fetch s.job.ID] } := h
  unfold doneBranch
  split
  · exact h
  · exact failWith_neverReturns (by simp) _ h1
  · exact failWith_neverReturns (by simp) _ h1
  · split
    · exact failWith_neverReturns (by simp) _ h1
    · split
      · exact failWith_neverReturns (by simp) _ h1
      · exact Step.andThen_state _ _ (closeErr_neverReturns _ h1)
          fun s2 h2 => sendResp_neverReturns env _ s2 h2

theorem timeoutCheck_neverReturns (env : Env) (s : PollState)
    (h : neverReturns Err.limitPerPageConflict s) :
    neverReturns Err.limitPerPageConflict (timeoutCheck env s).1 := by
  unfold timeoutCheck
  split
  · exact failWith_neverReturns (by simp) _ h
  · exact h

theorem iteration_neverReturns (env : Env) (s : PollState)
    (h : neverReturns Err.limitPerPageConflict s) :
    neverReturns Err.limitPerPageConflict (iteration env s).1 := by
  have h1 : neverReturns Err.limitPerPageConflict
      { s with polls := s.polls + 1, trace := s.trace ++ [Event.poll s.job.ID] } := h
  unfold iteration
  split
  · exact h
  · exact failWith_neverReturns (by simp) _ h1
  · exact failWith_neverReturns (by simp) _ h1
  · exact h1
  · refine Step.andThen_state _ _ ?_ (timeoutCheck_neverReturns env)
    split
    · exact doneBranch_neverReturns env _ h1
    · split
      · exact failWith_neverReturns (by simp) _ h1
      · exact h1

theorem pollLoop_neverReturns (env : Env) (fuel : Nat) (s : PollState)
    (h : neverReturns Err.limitPerPageConflict s) :
    neverReturns Err.limitPerPageConflict (pollLoop env fuel s).1 := by
  induction fuel generalizing s with
  | zero => exact h
  | succ fuel ih =>
    exact Step.andThen_state _ _ (iteration_neverReturns env s h) ih

theorem submitAndPoll_neverReturns (env : Env) (fuel : Nat) (payload : Payload) :
    neverReturns Err.limitPerPageConflict (submitAndPoll env fuel payload).1 := by
  unfold submitAndPoll
  split
  · simp [neverReturns, PollState.rejected]
  · split
    · simp [neverReturns, PollState.entryPanicked]
    · simp [neverReturns, PollState.rejected]
    · simp [neverReturns, PollState.rejected]
    · simp [neverReturns, PollState.start]
    · exact pollLoop_neverReturns env fuel _ (by simp [neverReturns, PollState.start])

/-- The condition of the limit_per_page guard (line 35). -/
theorem ScrapeGoogleSearch_of_conflict (env : Env) (fuel : Nat) (query : String)
    (opts : List (Option GoogleSearchOpts))
    (hc : ((lastOpt GoogleSearchOpts.zero opts).Limit ≠ 0
          ∨ (lastOpt GoogleSearchOpts.zero opts).StartPage ≠ 0
          ∨ (lastOpt GoogleSearchOpts.zero opts).Pages ≠ 0)
        ∧ buildContext (lastOpt GoogleSearchOpts.zero opts).Context "limit_per_page" ≠ Value.nil) :
    ScrapeGoogleSearch env fuel query opts =
      { opt := lastOpt GoogleSearchOpts.zero opts,
        state := PollState.rejected Err.limitPerPageConflict [], stop := none } := by
  unfold ScrapeGoogleSearch
  dsimp only
  rw [if_pos hc]

theorem ScrapeGoogleSearch_of_no_conflict (env : Env) (fuel : Nat) (query : String)
    (opts : List (Option GoogleSearchOpts))
    (hc : ¬ (((lastOpt GoogleSearchOpts.zero opts).Limit ≠ 0
          ∨ (lastOpt GoogleSearchOpts.zero opts).StartPage ≠ 0
          ∨ (lastOpt GoogleSearchOpts.zero opts).Pages ≠ 0)
        ∧ buildContext (lastOpt GoogleSearchOpts.zero opts).Context "limit_per_page" ≠ Value.nil)) :
    ScrapeGoogleSearch env fuel query opts =
      match env.checkSearchParameters (setSearchDefaults (lastOpt GoogleSearchOpts.zero opts))
          (buildContext (lastOpt GoogleSearchOpts.zero opts).Context) with
      | some e =>
        { opt := setSearchDefaults (lastOpt GoogleSearchOpts.zero opts),
          state := PollState.rejected (Err.invalidParameter e) [], stop := none }
      | none =>
        { opt := setSearchDefaults (lastOpt GoogleSearchOpts.zero opts),
          state := (submitAndPoll env fuel (searchPayload query
            (setSearchDefaults (lastOpt GoogleSearchOpts.zero opts))
            (buildContext (lastOpt GoogleSearchOpts.zero opts).Context))).1,
          stop := (submitAndPoll env fuel (searchPayload query
            (setSearchDefaults (lastOpt GoogleSearchOpts.zero opts))
            (buildContext (lastOpt GoogleSearchOpts.zero opts).Context))).2 } := by
  unfold ScrapeGoogleSearch
  dsimp only
  rw [if_neg hc]

theorem lastOpt_concat {Opts : Type} (zero : Opts) (before : List (Option Opts)) (o : Opts) :
    lastOpt zero (before ++ [some o]) = o := by
  simp [lastOpt]

theorem setSearchDefaults_idem (o : GoogleSearchOpts) :
    setSearchDefaults (setSearchDefaults o) = setSearchDefaults o := by
  have h1 : SetDefaultDomain (SetDefaultDomain o.Domain) = SetDefaultDomain o.Domain := by
    unfold SetDefaultDomain DOMAIN_COM; split
    · rfl
    · rename_i h; simp [h]
  have h2 : SetDefaultStartPage (SetDefaultStartPage o.StartPage) = SetDefaultStartPage o.StartPage := by
    unfold SetDefaultStartPage; split
    · rfl
    · rename_i h; simp [h]
  have h3 : SetDefaultLimit (SetDefaultLimit o.Limit) = SetDefaultLimit o.Limit := by
    unfold SetDefaultLimit; split
    · rfl
    · rename_i h; simp [h]
  have h4 : SetDefaultPages (SetDefaultPages o.Pages) = SetDefaultPages o.Pages := by
    unfold SetDefaultPages; split
    · rfl
    · rename_i h; simp [h]
  have h5 : SetDefaultUserAgent (SetDefaultUserAgent o.UserAgent) = SetDefaultUserAgent o.UserAgent := by
    unfold SetDefaultUserAgent UA_DESKTOP; split
    · rfl
    · rename_i h; simp [h]
  simp only [setSearchDefaults, h1, h2, h3, h4, h5]

theorem SetDefaultUserAgent_idem (userAgent : String) :
    SetDefaultUserAgent (SetDefaultUserAgent userAgent) = SetDefaultUserAgent userAgent := by
  unfold SetDefaultUserAgent UA_DESKTOP; split
  · rfl
  · rename_i h; simp [h]

theorem ScrapeGoogleSearch_opt (env : Env) (fuel : Nat) (query : String)
    (opts : List (Option GoogleSearchOpts)) :
    (ScrapeGoogleSearch env fuel query opts).opt =
      if ((lastOpt GoogleSearchOpts.zero opts).Limit ≠ 0
          ∨ (lastOpt GoogleSearchOpts.zero opts).StartPage ≠ 0
          ∨ (lastOpt GoogleSearchOpts.zero opts).Pages ≠ 0)
        ∧ buildContext (lastOpt GoogleSearchOpts.zero opts).Context "limit_per_page" ≠ Value.nil
      then lastOpt GoogleSearchOpts.zero opts
      else setSearchDefaults (lastOpt GoogleSearchOpts.zero opts) := by
  split
  · rename_i hc
    rw [ScrapeGoogleSearch_of_conflict env fuel query opts hc]
  · rename_i hc
    rw [ScrapeGoogleSearch_of_no_conflict env fuel query opts hc]
    split <;> rfl

theorem ScrapeGoogleUrl_opt (env : Env) (fuel : Nat) (url : String)
    (opts : List (Option GoogleUrlOpts)) :
    (ScrapeGoogleUrl env fuel url opts).opt =
      if ValidateURL env.parseRequestURI url "google" = none
      then { lastOpt GoogleUrlOpts.zero opts with
              UserAgent := SetDefaultUserAgent (lastOpt GoogleUrlOpts.zero opts).UserAgent }
      else lastOpt GoogleUrlOpts.zero opts := by
  unfold ScrapeGoogleUrl
  cases hv : ValidateURL env.parseRequestURI url "google" with
  | some e => simp
  | none =>
    simp only [if_true]
    split <;> rfl

theorem failWith_of_fresh (e : Err) (s : PollState) (h1 : s.errClosed = false)
    (h2 : s.errReceived = false) (h3 : s.respClosed = false) :
    failWith e s =
      ({ s with errReceived := true, respClosed := true, ret := some (Ret.failure e),
                trace := s.trace ++ [Event.sendErr e, Event.closeResp] }, some Stop.returned) := by
  simp [failWith, sendErr, closeResp, h1, h2, h3]

theorem failWith_of_errClosed (e : Err) (s : PollState) (h1 : s.errClosed = true) :
    failWith e s = (s, some (Stop.panicked "send on closed channel")) := by
  simp [failWith, sendErr, h1]

/-- The loop body after a poll that was answered. -/
theorem iteration_of_ok (env : Env) (s : PollState) (body : JobPatch)
    (hp : env.polls s.polls = .ok (.object body)) :
    iteration env s =
      Step.andThen
        (if (s.job.unmarshal body).Status = "done" then
          doneBranch env { s with polls := s.polls + 1, job := s.job.unmarshal body,
                                  trace := s.trace ++ [Event.poll s.job.ID] }
        else if (s.job.unmarshal body).Status = "faulted" then
          failWith Err.faulted { s with polls := s.polls + 1, job := s.job.unmarshal body,
                                        trace := s.trace ++ [Event.poll s.job.ID] }
        else ({ s with polls := s.polls + 1, job := s.job.unmarshal body,
                       trace := s.trace ++ [Event.poll s.job.ID] }, none))
        (timeoutCheck env) := by
  unfold iteration
  rw [hp]

theorem iteration_of_faulted (env : Env) (s : PollState) (body : JobPatch)
    (hp : env.polls s.polls = .ok (.object body)) (hst : (s.job.unmarshal body).Status = "faulted")
    (h1 : s.errClosed = false) (h2 : s.errReceived = false) (h3 : s.respClosed = false) :
    iteration env s =
      ({ s with polls := s.polls + 1, job := s.job.unmarshal body, errReceived := true,
                respClosed := true, ret := some (Ret.failure Err.faulted),
                trace := s.trace ++ [Event.poll s.job.ID, Event.sendErr Err.faulted,
                  Event.closeResp] }, some Stop.returned) := by
  rw [iteration_of_ok env s body hp, if_neg (by rw [hst]; decide), if_pos hst,
    failWith_of_fresh _ _ (by exact h1) (by exact h2) (by exact h3)]
  simp

theorem Job.unmarshal_status (job : Job) (body : JobPatch) (st : String)
    (h : body.Status = some st) : (job.unmarshal body).Status = st := by
  simp [Job.unmarshal, h]

theorem doneBranch_of_bad_status (env : Env) (s : PollState) (response : FetchResponse)
    (hf : env.fetches s.fetches = .ok response) (hcode : response.StatusCode ≠ 200)
    (h1 : s.errClosed = false) (h2 : s.errReceived = false) (h3 : s.respClosed = false) :
    doneBranch env s =
      ({ s with fetches := s.fetches + 1, errReceived := true, respClosed := true,
                ret := some (Ret.failure (Err.statusCode response.Status response.Body)),
                trace := s.trace ++ [Event.fetch s.job.ID,
                  Event.sendErr (Err.statusCode response.Status response.Body),
                  Event.closeResp] }, some Stop.returned) := by
  unfold doneBranch
  rw [hf]
  dsimp only
  rw [if_pos hcode, failWith_of_fresh _ _ (by exact h1) (by exact h2) (by exact h3)]
  simp

theorem iteration_of_pending (env : Env) (s : PollState) (body : JobPatch)
    (hp : env.polls s.polls = .ok (.object body))
    (hnd : (s.job.unmarshal body).Status ≠ "done")
    (hnf : (s.job.unmarshal body).Status ≠ "faulted")
    (hle : env.elapsed s.ticks ≤ env.DefaultTimeout) :
    iteration env s =
      ({ s with job := s.job.unmarshal body, polls := s.polls + 1, ticks := s.ticks + 1,
                trace := s.trace ++ [Event.poll s.job.ID, Event.sleep env.DefaultWaitTime] },
       none) := by
  rw [iteration_of_ok env s body hp, if_neg hnd, if_neg hnf, Step.andThen_none]
  unfold timeoutCheck
  dsimp only
  rw [if_neg (not_lt.mpr hle)]
  simp

theorem iteration_of_pending_timeout (env : Env) (s : PollState) (body : JobPatch)
    (hp : env.polls s.polls = .ok (.object body))
    (hnd : (s.job.unmarshal body).Status ≠ "done")
    (hnf : (s.job.unmarshal body).Status ≠ "faulted")
    (hgt : env.DefaultTimeout < env.elapsed s.ticks)
    (h1 : s.errClosed = false) (h2 : s.errReceived = false) (h3 : s.respClosed = false) :
    iteration env s =
      ({ s with job := s.job.unmarshal body, polls := s.polls + 1, ticks := s.ticks + 1,
                errReceived := true, respClosed := true,
                ret := some (Ret.failure (Err.timeout (env.showDuration env.DefaultTimeout))),
                trace := s.trace ++ [Event.poll s.job.ID,
                  Event.sendErr (Err.timeout (env.showDuration env.DefaultTimeout)),
                  Event.closeResp] }, some Stop.returned) := by
  rw [iteration_of_ok env s body hp, if_neg hnd, if_neg hnf, Step.andThen_none]
  unfold timeoutCheck
  dsimp only
  rw [if_pos hgt, failWith_of_fresh _ _ (by exact h1) (by exact h2) (by exact h3)]
  simp

/-- While the job's status after each poll is non-terminal and the clock is
within the budget, `n` iterations lead from the start state to `pendingState n`. -/
theorem pollLoop_pending_steps (env : Env) (job : Job) (trace : List Event) (N : Nat)
    (hpend : ∀ k, k < N → ∃ body, env.polls k = .ok (.object body)
      ∧ ((jobAt env job k).unmarshal body).Status ≠ "done"
      ∧ ((jobAt env job k).unmarshal body).Status ≠ "faulted")
    (hle : ∀ i, i < N → env.elapsed i ≤ env.DefaultTimeout) (n : Nat) (hn : n ≤ N)
    (fuel : Nat) :
    pollLoop env (n + fuel) (PollState.start job trace)
      = pollLoop env fuel (pendingState env job trace n) := by
  induction n generalizing fuel with
  | zero =>
    simp [pendingState, PollState.start, jobAt, pendingTrace]
  | succ n ih =>
    have hlt : n < N := hn
    rw [show n + 1 + fuel = n + (fuel + 1) by omega, ih (Nat.le_of_lt hlt) (fuel + 1)]
    obtain ⟨body, hp, hnd, hnf⟩ := hpend n hlt
    simp only [pollLoop]
    rw [iteration_of_pending env (pendingState env job trace n) body hp hnd hnf (hle n hlt),
      Step.andThen_none]
    congr 1
    simp [pendingState, jobAt, pendingTrace, hp]

theorem chanOps_append (t u : List Event) : chanOps (t ++ u) = chanOps t ++ chanOps u := by
  simp [chanOps]

theorem failWith_failedWith (trace0 : List Event) (e : Err) (s : PollState)
    (h1 : s.errClosed = false) (h2 : s.errReceived = false) (h3 : s.respClosed = false)
    (hc : chanOps s.trace = chanOps trace0) : FailedWith trace0 e (failWith e s) := by
  rw [failWith_of_fresh e s h1 h2 h3]
  refine ⟨rfl, ?_, rfl, h1, rfl⟩
  show chanOps (s.trace ++ [Event.sendErr e, Event.closeResp]) = _
  rw [chanOps_append, hc]
  rfl

theorem failWith_failed (trace0 : List Event) (e : Err) (s : PollState)
    (h1 : s.errClosed = false) (h2 : s.errReceived = false) (h3 : s.respClosed = false)
    (hc : chanOps s.trace = chanOps trace0) : Failed trace0 (failWith e s) :=
  ⟨e, failWith_failedWith trace0 e s h1 h2 h3 hc⟩

theorem failWith_delivered (trace0 : List Event) (e : Err) (s : PollState)
    (h : Delivered trace0 s) : Delivered trace0 (failWith e s).1 := by
  rw [failWith_of_errClosed e s h.1.1]
  exact h

theorem timeoutCheck_running (env : Env) (trace0 : List Event) (n : Nat) (s : PollState)
    (h : Running env trace0 n s) :
    ((timeoutCheck env s).2 = none ∧ Running env trace0 (n + 1) (timeoutCheck env s).1)
      ∨ Failed trace0 (timeoutCheck env s) := by
  obtain ⟨⟨f1, f2, f3, f4⟩, hc, hn, hle⟩ := h
  unfold timeoutCheck
  dsimp only
  by_cases hgt : env.elapsed s.ticks > env.DefaultTimeout
  · right
    rw [if_pos hgt]
    exact failWith_failed trace0 _ _ f1 f2 f3 hc
  · left
    rw [if_neg hgt]
    refine ⟨rfl, ⟨f1, f2, f3, f4⟩, ?_, ?_, ?_⟩
    · show chanOps (s.trace ++ [Event.sleep env.DefaultWaitTime]) = _
      rw [chanOps_append, hc]
      simp [chanOps, Event.isChannelOp]
    · show s.ticks + 1 = n + 1
      rw [hn]
    · intro i hi
      by_cases hin : i < n
      · exact hle i hin
      · have : i = s.ticks := by omega
        rw [this]
        exact not_lt.mp hgt

theorem timeoutCheck_delivered (env : Env) (trace0 : List Event) (s : PollState)
    (h : Delivered trace0 s) : Delivered trace0 (timeoutCheck env s).1 := by
  unfold timeoutCheck
  dsimp only
  split
  · exact failWith_delivered trace0 _ _ h
  · obtain ⟨hs, resp, hc⟩ := h
    refine ⟨hs, resp, ?_⟩
    show chanOps (s.trace ++ [Event.sleep env.DefaultWaitTime]) = _
    rw [chanOps_append, hc]
    simp [chanOps, Event.isChannelOp]

theorem doneBranch_running (env : Env) (trace0 : List Event) (s : PollState)
    (hf : s.Fresh) (hc : chanOps s.trace = chanOps trace0)
    (hfetch : env.fetches s.fetches ≠ .noRequest) :
    Failed trace0 (doneBranch env s)
      ∨ ((doneBranch env s).2 = none ∧ Delivered trace0 (doneBranch env s).1)
      ∨ Unreceived env trace0 (doneBranch env s) := by
  obtain ⟨f1, f2, f3, f4⟩ := hf
  have hc1 : chanOps (s.trace ++ [Event.fetch s.job.ID]) = chanOps trace0 := by
    rw [chanOps_append, hc]
    simp [chanOps, Event.isChannelOp]
  unfold doneBranch
  dsimp only
  split
  · rename_i hnone
    exact absurd hnone hfetch
  · exact Or.inl (failWith_failed trace0 _ _ f1 f2 f3 hc1)
  · exact Or.inl (failWith_failed trace0 _ _ f1 f2 f3 hc1)
  · split
    · exact Or.inl (failWith_failed trace0 _ _ f1 f2 f3 hc1)
    · split
      · exact Or.inl (failWith_failed trace0 _ _ f1 f2 f3 hc1)
      · right
        rename_i response _ _ _ resp _
        by_cases hr : env.callerReceives = true
        · left
          simp only [closeErr, f1, f2, sendResp, f3, hr, Step.andThen_none, Bool.false_eq_true,
            if_false, and_self, if_true, true_and]
          refine ⟨⟨rfl, rfl, rfl⟩,
            { resp with StatusCode := response.StatusCode, Status := response.Status }, ?_⟩
          show chanOps (s.trace ++ [Event.fetch s.job.ID] ++ [Event.closeErr]
            ++ [Event.sendResp _]) = _
          rw [chanOps_append, chanOps_append, hc1]
          simp [chanOps, Event.isChannelOp]
        · right
          simp only [closeErr, f1, f2, sendResp, f3, hr, Step.andThen_none, Bool.false_eq_true,
            if_false, and_false]
          refine ⟨rfl, by simpa using hr, ⟨rfl, rfl, rfl⟩, ?_⟩
          show chanOps (s.trace ++ [Event.fetch s.job.ID] ++ [Event.closeErr]) = _
          rw [chanOps_append, hc1]
          simp [chanOps, Event.isChannelOp]

theorem closeErr_of_errClosed (s : PollState) (h : s.errClosed = true) :
    closeErr s = (s, some (Stop.panicked "close of closed channel")) := by
  simp [closeErr, h]

theorem doneBranch_delivered (env : Env) (trace0 : List Event) (s : PollState)
    (h : Delivered trace0 s) : Delivered trace0 (doneBranch env s).1 := by
  have h1 : Delivered trace0
      { s with fetches := s.fetches + 1, trace := s.trace ++ [Event.fetch s.job.ID] } := by
    obtain ⟨hs, resp, hc⟩ := h
    refine ⟨hs, resp, ?_⟩
    show chanOps (s.trace ++ [Event.fetch s.job.ID]) = _
    rw [chanOps_append, hc]
    simp [chanOps, Event.isChannelOp]
  unfold doneBranch
  dsimp only
  split
  · exact h
  · exact failWith_delivered trace0 _ _ h1
  · exact failWith_delivered trace0 _ _ h1
  · split
    · exact failWith_delivered trace0 _ _ h1
    · split
      · exact failWith_delivered trace0 _ _ h1
      · rw [closeErr_of_errClosed _ (by exact h1.1.1)]
        exact h1

theorem iteration_delivered (env : Env) (trace0 : List Event) (s : PollState)
    (h : Delivered trace0 s) : Delivered trace0 (iteration env s).1 := by
  have h1 : ∀ job, Delivered trace0
      { s with polls := s.polls + 1, job := job, trace := s.trace ++ [Event.poll s.job.ID] } := by
    intro job
    obtain ⟨hs, resp, hc⟩ := h
    refine ⟨hs, resp, ?_⟩
    show chanOps (s.trace ++ [Event.poll s.job.ID]) = _
    rw [chanOps_append, hc]
    simp [chanOps, Event.isChannelOp]
  unfold iteration
  dsimp only
  split
  · exact h
  · exact failWith_delivered trace0 _ _ (h1 s.job)
  · exact failWith_delivered trace0 _ _ (h1 s.job)
  · exact h1 s.job
  · refine Step.andThen_state _ _ ?_ (timeoutCheck_delivered env trace0)
    split
    · exact doneBranch_delivered env trace0 _ (h1 _)
    · split
      · exact failWith_delivered trace0 _ _ (h1 _)
      · exact h1 _

theorem pollLoop_delivered (env : Env) (trace0 : List Event) (fuel : Nat) (s : PollState)
    (h : Delivered trace0 s) : Delivered trace0 (pollLoop env fuel s).1 := by
  induction fuel generalizing s with
  | zero => exact h
  | succ fuel ih =>
    exact Step.andThen_state _ _ (iteration_delivered env trace0 s h) ih

theorem iteration_running (env : Env) (trace0 : List Event) (n : Nat) (s : PollState)
    (h : Running env trace0 n s)
    (hpoll : ∀ k, env.polls k ≠ .noRequest ∧ env.polls k ≠ .ok JobBody.null)
    (hfetch : ∀ k, env.fetches k ≠ .noRequest) :
    ((iteration env s).2 = none ∧ Running env trace0 (n + 1) (iteration env s).1)
      ∨ Failed trace0 (iteration env s)
      ∨ Delivered trace0 (iteration env s).1
      ∨ Unreceived env trace0 (iteration env s) := by
  obtain ⟨⟨f1, f2, f3, f4⟩, hc, hn, hle⟩ := h
  have hc1 : chanOps (s.trace ++ [Event.poll s.job.ID]) = chanOps trace0 := by
    rw [chanOps_append, hc]
    simp [chanOps, Event.isChannelOp]
  unfold iteration
  dsimp only
  split
  · rename_i hnone
    exact absurd hnone (hpoll s.polls).1
  · exact Or.inr (Or.inl (failWith_failed trace0 _ _ f1 f2 f3 hc1))
  · exact Or.inr (Or.inl (failWith_failed trace0 _ _ f1 f2 f3 hc1))
  · rename_i hnull
    exact absurd hnull (hpoll s.polls).2
  · rename_i body _
    split
    · rcases doneBranch_running env trace0
        { s with polls := s.polls + 1, job := s.job.unmarshal body,
                 trace := s.trace ++ [Event.poll s.job.ID] } ⟨f1, f2, f3, f4⟩ hc1
        (hfetch _)
        with hfail | ⟨hnone, hdel⟩ | hunrec
      · obtain ⟨e, hstop, hrest⟩ := hfail
        right; left
        generalize doneBranch env _ = r at hstop hrest
        obtain ⟨r1, r2⟩ := r
        simp only at hstop
        subst hstop
        exact ⟨e, rfl, hrest⟩
      · right; right; left
        generalize doneBranch env _ = r at hnone hdel
        obtain ⟨r1, r2⟩ := r
        simp only at hnone
        subst hnone
        exact timeoutCheck_delivered env trace0 r1 hdel
      · obtain ⟨hstop, hrest⟩ := hunrec
        right; right; right
        generalize doneBranch env _ = r at hstop hrest
        obtain ⟨r1, r2⟩ := r
        simp only at hstop
        subst hstop
        exact ⟨rfl, hrest⟩
    · split
      · right; left
        have hf := failWith_failed trace0 Err.faulted
          { s with polls := s.polls + 1, job := s.job.unmarshal body,
                   trace := s.trace ++ [Event.poll s.job.ID] } f1 f2 f3 hc1
        obtain ⟨e, hstop, hrest⟩ := hf
        generalize failWith Err.faulted _ = r at hstop hrest
        obtain ⟨r1, r2⟩ := r
        simp only at hstop
        subst hstop
        exact ⟨e, rfl, hrest⟩
      · rw [Step.andThen_none]
        rcases timeoutCheck_running env trace0 n
          { s with polls := s.polls + 1, job := s.job.unmarshal body,
                   trace := s.trace ++ [Event.poll s.job.ID] }
          ⟨⟨f1, f2, f3, f4⟩, hc1, hn, hle⟩ with hrun | hfail
        · exact Or.inl hrun
        · exact Or.inr (Or.inl hfail)

theorem pollLoop_running (env : Env) (trace0 : List Event) (fuel n : Nat) (s : PollState)
    (h : Running env trace0 n s)
    (hpoll : ∀ k, env.polls k ≠ .noRequest ∧ env.polls k ≠ .ok JobBody.null)
    (hfetch : ∀ k, env.fetches k ≠ .noRequest) :
    ((pollLoop env fuel s).2 = none ∧ Running env trace0 (n + fuel) (pollLoop env fuel s).1)
      ∨ Failed trace0 (pollLoop env fuel s)
      ∨ Delivered trace0 (pollLoop env fuel s).1
      ∨ Unreceived env trace0 (pollLoop env fuel s) := by
  induction fuel generalizing n s with
  | zero => exact Or.inl ⟨rfl, h⟩
  | succ fuel ih =>
    simp only [pollLoop]
    rcases iteration_running env trace0 n s h hpoll hfetch
      with ⟨hnone, hrun⟩ | hfail | hdel | hunrec
    · generalize iteration env s = r at hnone hrun
      obtain ⟨r1, r2⟩ := r
      simp only at hnone
      subst hnone
      rw [Step.andThen_none, show n + (fuel + 1) = n + 1 + fuel by omega]
      exact ih (n + 1) r1 hrun
    · right; left
      obtain ⟨e, hstop, hrest⟩ := hfail
      generalize iteration env s = r at hstop hrest
      obtain ⟨r1, r2⟩ := r
      simp only at hstop
      subst hstop
      exact ⟨e, rfl, hrest⟩
    · right; right; left
      exact Step.andThen_state _ _ hdel (fun s1 h1 => pollLoop_delivered env trace0 fuel s1 h1)
    · right; right; right
      obtain ⟨hstop, hrest⟩ := hunrec
      generalize iteration env s = r at hstop hrest
      obtain ⟨r1, r2⟩ := r
      simp only at hstop
      subst hstop
      exact ⟨rfl, hrest⟩

theorem FailedWith.andThen {trace0 : List Event} {e : Err} {r : Step}
    (h : FailedWith trace0 e r) (k : PollState → Step) : FailedWith trace0 e (r.andThen k) := by
  obtain ⟨r1, r2⟩ := r
  have hstop : r2 = some Stop.returned := h.1
  subst hstop
  exact h

theorem chanOps_snoc_poll (t : List Event) (id : String) :
    chanOps (t ++ [Event.poll id]) = chanOps t := by
  rw [chanOps_append]
  simp [chanOps, Event.isChannelOp]

theorem chanOps_snoc_fetch (t : List Event) (id : String) :
    chanOps (t ++ [Event.fetch id]) = chanOps t := by
  rw [chanOps_append]
  simp [chanOps, Event.isChannelOp]

theorem chanOps_snoc_sleep (t : List Event) (d : Int) :
    chanOps (t ++ [Event.sleep d]) = chanOps t := by
  rw [chanOps_append]
  simp [chanOps, Event.isChannelOp]

theorem iteration_failedWith_transport (env : Env) (s : PollState) (e : String)
    (h1 : s.errClosed = false) (h2 : s.errReceived = false) (h3 : s.respClosed = false)
    (hp : env.polls s.polls = .transportErr e) :
    FailedWith s.trace (Err.transport e) (iteration env s) := by
  unfold iteration
  rw [hp]
  exact failWith_failedWith s.trace _ _ (by exact h1) (by exact h2) (by exact h3)
    (chanOps_snoc_poll _ _)

theorem iteration_failedWith_readBody (env : Env) (s : PollState) (e : String)
    (h1 : s.errClosed = false) (h2 : s.errReceived = false) (h3 : s.respClosed = false)
    (hp : env.polls s.polls = .readErr e) :
    FailedWith s.trace (Err.readBody e) (iteration env s) := by
  unfold iteration
  rw [hp]
  exact failWith_failedWith s.trace _ _ (by exact h1) (by exact h2) (by exact h3)
    (chanOps_snoc_poll _ _)

theorem iteration_failedWith_faulted (env : Env) (s : PollState) (body : JobPatch)
    (h1 : s.errClosed = false) (h2 : s.errReceived = false) (h3 : s.respClosed = false)
    (hp : env.polls s.polls = .ok (.object body))
    (hst : (s.job.unmarshal body).Status = "faulted") :
    FailedWith s.trace Err.faulted (iteration env s) := by
  rw [iteration_of_ok env s body hp, if_neg (by rw [hst]; decide), if_pos hst]
  exact (failWith_failedWith s.trace _ _ (by exact h1) (by exact h2) (by exact h3)
    (chanOps_snoc_poll _ _)).andThen _

theorem iteration_failedWith_timeout (env : Env) (s : PollState) (body : JobPatch)
    (h1 : s.errClosed = false) (h2 : s.errReceived = false) (h3 : s.respClosed = false)
    (hp : env.polls s.polls = .ok (.object body))
    (hnd : (s.job.unmarshal body).Status ≠ "done")
    (hnf : (s.job.unmarshal body).Status ≠ "faulted")
    (hgt : env.DefaultTimeout < env.elapsed s.ticks) :
    FailedWith s.trace (Err.timeout (env.showDuration env.DefaultTimeout)) (iteration env s) := by
  rw [iteration_of_ok env s body hp, if_neg hnd, if_neg hnf, Step.andThen_none]
  unfold timeoutCheck
  dsimp only
  rw [if_pos hgt]
  exact failWith_failedWith s.trace _ _ (by exact h1) (by exact h2) (by exact h3)
    (chanOps_snoc_poll _ _)

theorem doneBranch_failedWith_transport (env : Env) (trace0 : List Event) (s : PollState)
    (e : String)
    (h1 : s.errClosed = false) (h2 : s.errReceived = false) (h3 : s.respClosed = false)
    (hc : chanOps s.trace = chanOps trace0)
    (hf : env.fetches s.fetches = .transportErr e) :
    FailedWith trace0 (Err.transport e) (doneBranch env s) := by
  unfold doneBranch
  rw [hf]
  exact failWith_failedWith trace0 _ _ (by exact h1) (by exact h2) (by exact h3)
    (by rw [← hc]; exact chanOps_snoc_fetch _ _)

theorem doneBranch_failedWith_readBody (env : Env) (trace0 : List Event) (s : PollState)
    (e : String)
    (h1 : s.errClosed = false) (h2 : s.errReceived = false) (h3 : s.respClosed = false)
    (hc : chanOps s.trace = chanOps trace0)
    (hf : env.fetches s.fetches = .readErr e) :
    FailedWith trace0 (Err.readBody e) (doneBranch env s) := by
  unfold doneBranch
  rw [hf]
  exact failWith_failedWith trace0 _ _ (by exact h1) (by exact h2) (by exact h3)
    (by rw [← hc]; exact chanOps_snoc_fetch _ _)

theorem doneBranch_failedWith_statusCode (env : Env) (trace0 : List Event) (s : PollState)
    (response : FetchResponse)
    (h1 : s.errClosed = false) (h2 : s.errReceived = false) (h3 : s.respClosed = false)
    (hc : chanOps s.trace = chanOps trace0)
    (hf : env.fetches s.fetches = .ok response) (hcode : response.StatusCode ≠ 200) :
    FailedWith trace0 (Err.statusCode response.Status response.Body) (doneBranch env s) := by
  unfold doneBranch
  rw [hf]
  dsimp only
  rw [if_pos hcode]
  exact failWith_failedWith trace0 _ _ (by exact h1) (by exact h2) (by exact h3)
    (by rw [← hc]; exact chanOps_snoc_fetch _ _)

theorem doneBranch_failedWith_parseJSON (env : Env) (trace0 : List Event) (s : PollState)
    (response : FetchResponse) (e : String)
    (h1 : s.errClosed = false) (h2 : s.errReceived = false) (h3 : s.respClosed = false)
    (hc : chanOps s.trace = chanOps trace0)
    (hf : env.fetches s.fetches = .ok response) (hcode : response.StatusCode = 200)
    (hd : env.unmarshalResponse response.Body = .error e) :
    FailedWith trace0 (Err.parseJSON e) (doneBranch env s) := by
  unfold doneBranch
  rw [hf]
  dsimp only
  rw [if_neg (fun h => h hcode), hd]
  exact failWith_failedWith trace0 _ _ (by exact h1) (by exact h2) (by exact h3)
    (by rw [← hc]; exact chanOps_snoc_fetch _ _)

theorem doneBranch_of_success (env : Env) (s : PollState) (response : FetchResponse)
    (resp : Response)
    (h1 : s.errClosed = false) (h2 : s.errReceived = false) (h3 : s.respClosed = false)
    (hf : env.fetches s.fetches = .ok response) (hcode : response.StatusCode = 200)
    (hd : env.unmarshalResponse response.Body = .ok resp) :
    doneBranch env s =
      if env.callerReceives = true then
        ({ s with fetches := s.fetches + 1, errClosed := true, errReceived := true,
                  ret := some Ret.channel,
                  trace := s.trace ++ [Event.fetch s.job.ID, Event.closeErr,
                    Event.sendResp { resp with StatusCode := response.StatusCode,
                                               Status := response.Status }] }, none)
      else
        ({ s with fetches := s.fetches + 1, errClosed := true, errReceived := true,
                  ret := some Ret.channel,
                  trace := s.trace ++ [Event.fetch s.job.ID, Event.closeErr] },
          some Stop.blocked) := by
  unfold doneBranch
  rw [hf]
  dsimp only
  rw [if_neg (fun h => h hcode), hd]
  by_cases hr : env.callerReceives = true
  · simp [closeErr, sendResp, h1, h2, h3, hr]
  · simp [closeErr, sendResp, h1, h2, h3, hr]

theorem timeoutCheck_deliveredAs (env : Env) (trace0 : List Event) (resp : Response)
    (s : PollState) (h : DeliveredAs trace0 resp s) :
    DeliveredAs trace0 resp (timeoutCheck env s).1 := by
  obtain ⟨hc, hret, he, hr⟩ := h
  unfold timeoutCheck
  dsimp only
  split
  · rw [failWith_of_errClosed _ _ (by exact he)]
    exact ⟨hc, hret, he, hr⟩
  · refine ⟨?_, hret, he, hr⟩
    show chanOps (s.trace ++ [Event.sleep env.DefaultWaitTime]) = _
    rw [chanOps_snoc_sleep, hc]

/-- After a poll body `null` the pointer `job` is nil and the status test
dereferences it: the goroutine panics without any channel operation. -/
theorem iteration_of_null (env : Env) (s : PollState) (hp : env.polls s.polls = .ok .null) :
    iteration env s =
      ({ s with polls := s.polls + 1, trace := s.trace ++ [Event.poll s.job.ID] },
        some (Stop.panicked nilDereference)) := by
  unfold iteration
  rw [hp]

/-- When the poll request cannot be built the goroutine panics before any call. -/
theorem iteration_of_noRequest (env : Env) (s : PollState)
    (hp : env.polls s.polls = .noRequest) :
    iteration env s = (s, some (Stop.panicked nilDereference)) := by
  unfold iteration
  rw [hp]

/-- After a submission answered `null` the goroutine panics before its first poll. -/
theorem submitAndPoll_of_null (env : Env) (fuel : Nat) (payload : Payload) (json : String)
    (hm : env.marshal payload = .ok json) (hs : env.submit json = .ok .null) :
    submitAndPoll env fuel payload =
      (PollState.start { ID := "", Status := "" } [Event.post json],
        some (Stop.panicked nilDereference)) := by
  unfold submitAndPoll
  rw [hm]
  dsimp only
  rw [hs]

/-! ## Defaults -/

/-- C4: each of SetDefaultDomain, SetDefaultStartPage, SetDefaultPages,
SetDefaultLimit and SetDefaultUserAgent leaves a non-zero value unchanged and
replaces the zero value by its default ("com", 1, 1, 48, desktop); the result
is never the zero value, and applying a setter twice is the same as applying
it once. -/
theorem setDefaults_spec (domain userAgent : String) (startPage pages limit : Int) :
    ((domain ≠ "" → SetDefaultDomain domain = domain) ∧ SetDefaultDomain "" = "com"
      ∧ SetDefaultDomain domain ≠ ""
      ∧ SetDefaultDomain (SetDefaultDomain domain) = SetDefaultDomain domain)
    ∧ ((startPage ≠ 0 → SetDefaultStartPage startPage = startPage) ∧ SetDefaultStartPage 0 = 1
      ∧ SetDefaultStartPage startPage ≠ 0
      ∧ SetDefaultStartPage (SetDefaultStartPage startPage) = SetDefaultStartPage startPage)
    ∧ ((pages ≠ 0 → SetDefaultPages pages = pages) ∧ SetDefaultPages 0 = 1
      ∧ SetDefaultPages pages ≠ 0
      ∧ SetDefaultPages (SetDefaultPages pages) = SetDefaultPages pages)
    ∧ ((limit ≠ 0 → SetDefaultLimit limit = limit) ∧ SetDefaultLimit 0 = 48
      ∧ SetDefaultLimit limit ≠ 0
      ∧ SetDefaultLimit (SetDefaultLimit limit) = SetDefaultLimit limit)
    ∧ ((userAgent ≠ "" → SetDefaultUserAgent userAgent = userAgent)
      ∧ SetDefaultUserAgent "" = "desktop"
      ∧ SetDefaultUserAgent userAgent ≠ ""
      ∧ SetDefaultUserAgent (SetDefaultUserAgent userAgent) = SetDefaultUserAgent userAgent) := by
  refine ⟨⟨?_, rfl, ?_, ?_⟩, ⟨?_, rfl, ?_, ?_⟩, ⟨?_, rfl, ?_, ?_⟩, ⟨?_, rfl, ?_, ?_⟩,
    ⟨?_, rfl, ?_, ?_⟩⟩
  · intro h; simp [SetDefaultDomain, h]
  · unfold SetDefaultDomain DOMAIN_COM; split
    · decide
    · assumption
  · unfold SetDefaultDomain DOMAIN_COM; split
    · rfl
    · rename_i h; simp [h]
  · intro h; simp [SetDefaultStartPage, h]
  · unfold SetDefaultStartPage; split
    · decide
    · assumption
  · unfold SetDefaultStartPage; split
    · rfl
    · rename_i h; simp [h]
  · intro h; simp [SetDefaultPages, h]
  · unfold SetDefaultPages; split
    · decide
    · assumption
  · unfold SetDefaultPages; split
    · rfl
    · rename_i h; simp [h]
  · intro h; simp [SetDefaultLimit, h]
  · unfold SetDefaultLimit; split
    · decide
    · assumption
  · unfold SetDefaultLimit; split
    · rfl
    · rename_i h; simp [h]
  · intro h; simp [SetDefaultUserAgent, h]
  · unfold SetDefaultUserAgent UA_DESKTOP; split
    · decide
    · assumption
  · unfold SetDefaultUserAgent UA_DESKTOP; split
    · rfl
    · rename_i h; simp [h]

/-- C4, at a concrete input: the domain "de" and the limit 10 are kept, the
empty user agent and the zero start page and page count are replaced. -/
theorem setDefaults_spec_witness :
    SetDefaultDomain "de" = "de" ∧ SetDefaultLimit 10 = 10 ∧ SetDefaultUserAgent "" = "desktop"
      ∧ SetDefaultStartPage 0 = 1 ∧ SetDefaultPages 0 = 1 :=
  have h := setDefaults_spec "de" "" 0 0 10
  ⟨h.1.1 (by decide), h.2.2.2.1.1 (by decide), h.2.2.2.2.2.1, h.2.1.2.1, h.2.2.1.2.1⟩

/-- C5, the code at a context map without sort_by: the lookup yields the nil
interface value, which is not equal to the empty string, so SetDefaultSortBy
leaves the map as it is and sort_by is still unset, not "r". -/
theorem SetDefaultSortBy_absent_key_stays_unset :
    ContextOption.empty "sort_by" = Value.nil
      ∧ SetDefaultSortBy ContextOption.empty "sort_by" = Value.nil
      ∧ SetDefaultSortBy ContextOption.empty "sort_by" ≠ Value.str "r" := by
  refine ⟨rfl, ?_, ?_⟩ <;> decide

/-! ## URL validation -/

/-- C6: ValidateURL returns no error exactly when the input is non-empty,
parses, and the parsed URL has a non-empty scheme and a non-empty host that
contains the expected host as a substring; an input that does not parse to a
URL with a scheme is rejected; "https://evil.com" (parsed as scheme https, host
evil.com) is rejected for "google" with the error "URL does not belong to
google"; "https://www.google.com/search?q=x" (parsed as scheme https, host
www.google.com) is accepted; and ScrapeGoogleUrl returns the validation error
with a nil channel, having made no HTTP call and leaving the options alone. -/
theorem ValidateURL_spec (env : Env) (fuel : Nat) (u h : String)
    (opts : List (Option GoogleUrlOpts)) :
    (ValidateURL env.parseRequestURI u h = none ↔
        u ≠ "" ∧ ∃ parsed, env.parseRequestURI u = .ok parsed ∧ parsed.Scheme ≠ ""
          ∧ parsed.Host ≠ "" ∧ h.data <:+: parsed.Host.data)
    ∧ ((∀ parsed, env.parseRequestURI u = .ok parsed → parsed.Scheme = "") →
        ValidateURL env.parseRequestURI u h ≠ none)
    ∧ (env.parseRequestURI "https://evil.com" = .ok { Scheme := "https", Host := "evil.com" } →
        ValidateURL env.parseRequestURI "https://evil.com" "google"
            = some (Err.urlWrongHost "google")
          ∧ (Err.urlWrongHost "google").message = "URL does not belong to google")
    ∧ (env.parseRequestURI "https://www.google.com/search?q=x"
          = .ok { Scheme := "https", Host := "www.google.com" } →
        ValidateURL env.parseRequestURI "https://www.google.com/search?q=x" "google" = none)
    ∧ (∀ e, ValidateURL env.parseRequestURI u "google" = some e →
        (ScrapeGoogleUrl env fuel u opts).state.ret = some (Ret.failure e)
          ∧ (ScrapeGoogleUrl env fuel u opts).state.trace = []
          ∧ (ScrapeGoogleUrl env fuel u opts).stop = none
          ∧ (ScrapeGoogleUrl env fuel u opts).opt = lastOpt GoogleUrlOpts.zero opts) := by
  have key : ValidateURL env.parseRequestURI u h = none ↔
      u ≠ "" ∧ ∃ parsed, env.parseRequestURI u = .ok parsed ∧ parsed.Scheme ≠ ""
        ∧ parsed.Host ≠ "" ∧ h.data <:+: parsed.Host.data := by
    unfold ValidateURL
    by_cases hu : u = ""
    · simp [hu]
    · simp only [hu, if_false, ne_eq, not_false_eq_true, true_and]
      cases hp : env.parseRequestURI u with
      | error e => simp
      | ok parsed =>
        by_cases h1 : parsed.Scheme = ""
        · simp [h1]
        · by_cases h2 : parsed.Host = ""
          · simp [h1, h2]
          · by_cases h3 : strContains parsed.Host h = true
            · have h3' := (strContains_iff _ _).1 h3
              simp [h1, h2, h3, h3']
            · have h3' : ¬ h.data <:+: parsed.Host.data := fun hc => h3 ((strContains_iff _ _).2 hc)
              simp [h1, h2, h3, h3']
  refine ⟨key, ?_, ?_, ?_, ?_⟩
  · intro hall hnone
    obtain ⟨_, parsed, hp, hs, _⟩ := key.1 hnone
    exact hs (hall parsed hp)
  · intro hp
    refine ⟨?_, by decide⟩
    unfold ValidateURL
    rw [hp]; decide
  · intro hp
    unfold ValidateURL
    rw [hp]; decide
  · intro e he
    simp [ScrapeGoogleUrl, he, PollState.rejected]

/-- C6, with the model of the standard parser: "www.google.com/search" is
rejected, "https://evil.com" is rejected with the host-mismatch error, and
"https://www.google.com/search?q=x" is accepted. -/
theorem ValidateURL_spec_witness :
    ValidateURL goParseRequestURI "www.google.com/search" "google" ≠ none
      ∧ ValidateURL goParseRequestURI "https://evil.com" "google"
          = some (Err.urlWrongHost "google")
      ∧ ValidateURL goParseRequestURI "https://www.google.com/search?q=x" "google" = none
      ∧ (ScrapeGoogleUrl demoEnv 5 "https://evil.com" []).state.ret
          = some (Ret.failure (Err.urlWrongHost "google")) :=
  have h := ValidateURL_spec demoEnv 5 "www.google.com/search" "google" []
  have h' := ValidateURL_spec demoEnv 5 "https://evil.com" "google" []
  ⟨h.2.1 (fun parsed hp => by
      have hp' : goParseRequestURI "www.google.com/search" = .ok parsed := hp
      have he : (goParseRequestURI "www.google.com/search").toBool = false := by decide
      rw [hp'] at he
      exact absurd he (by simp [Except.toBool])),
    (h.2.2.1 rfl).1, h.2.2.2.1 rfl,
    (h'.2.2.2.2 _ (by decide)).1⟩

/-! ## The limit_per_page guard -/

/-- C3: ScrapeGoogleSearch returns the error "limit, start_page and pages
parameters cannot be used together with limit_per_page context parameter"
exactly when one of Limit, StartPage, Pages is non-zero and the context
modifiers set a non-nil limit_per_page; it then returns a nil channel and has
made no HTTP call (nor any other event). -/
theorem limitPerPage_guard (env : Env) (fuel : Nat) (query : String)
    (opts : List (Option GoogleSearchOpts)) :
    ((ScrapeGoogleSearch env fuel query opts).state.ret
        = some (Ret.failure Err.limitPerPageConflict) ↔
      (((lastOpt GoogleSearchOpts.zero opts).Limit ≠ 0
          ∨ (lastOpt GoogleSearchOpts.zero opts).StartPage ≠ 0
          ∨ (lastOpt GoogleSearchOpts.zero opts).Pages ≠ 0)
        ∧ buildContext (lastOpt GoogleSearchOpts.zero opts).Context "limit_per_page" ≠ Value.nil))
    ∧ ((((lastOpt GoogleSearchOpts.zero opts).Limit ≠ 0
          ∨ (lastOpt GoogleSearchOpts.zero opts).StartPage ≠ 0
          ∨ (lastOpt GoogleSearchOpts.zero opts).Pages ≠ 0)
        ∧ buildContext (lastOpt GoogleSearchOpts.zero opts).Context "limit_per_page" ≠ Value.nil) →
      (ScrapeGoogleSearch env fuel query opts).state.trace = []
        ∧ (ScrapeGoogleSearch env fuel query opts).stop = none)
    ∧ Err.limitPerPageConflict.message =
        "limit, start_page and pages parameters cannot be used together with limit_per_page context parameter" := by
  refine ⟨?_, ?_, rfl⟩
  · constructor
    · intro hret
      by_contra hc
      rw [ScrapeGoogleSearch_of_no_conflict env fuel query opts hc] at hret
      split at hret
      · simp [PollState.rejected] at hret
      · exact submitAndPoll_neverReturns env fuel _ hret
    · intro hc
      rw [ScrapeGoogleSearch_of_conflict env fuel query opts hc]
      rfl
  · intro hc
    rw [ScrapeGoogleSearch_of_conflict env fuel query opts hc]
    exact ⟨rfl, rfl⟩

/-- C3, at options with Pages = 2 and limit_per_page = 10: the call is
rejected with the conflict error before any HTTP call. -/
theorem limitPerPage_guard_witness :
    (ScrapeGoogleSearch demoEnv 5 "shoes" [some pagesTwoWithLimitPerPage]).state.ret
        = some (Ret.failure Err.limitPerPageConflict)
      ∧ (ScrapeGoogleSearch demoEnv 5 "shoes" [some pagesTwoWithLimitPerPage]).state.trace = []
      ∧ (ScrapeGoogleSearch demoEnv 5 "shoes" [some pagesTwoWithLimitPerPage]).stop = none :=
  have h := limitPerPage_guard demoEnv 5 "shoes" [some pagesTwoWithLimitPerPage]
  ⟨h.1.2 (by decide), h.2.1 (by decide)⟩

/-! ## The caller's options after a call -/

/-- C10, refuted as stated: called with options whose pagination fields are
zero and whose context sets limit_per_page, ScrapeGoogleSearch passes
validation and leaves Limit = 48, StartPage = 1, Pages = 1 in the caller's
struct, so the struct is not what it was, and a second call with the same
struct is rejected by the limit_per_page guard; ScrapeGoogleUrl likewise
writes the user agent into the caller's struct. -/
theorem options_changed_by_call :
    (ScrapeGoogleSearch demoEnv 5 "shoes" [some onlyLimitPerPage]).opt ≠ onlyLimitPerPage
      ∧ (ScrapeGoogleSearch demoEnv 5 "shoes" [some onlyLimitPerPage]).opt.Limit = 48
      ∧ (ScrapeGoogleSearch demoEnv 5 "shoes" [some onlyLimitPerPage]).state.ret
          = some Ret.channel
      ∧ (ScrapeGoogleSearch demoEnv 5 "shoes"
            [some (ScrapeGoogleSearch demoEnv 5 "shoes" [some onlyLimitPerPage]).opt]).state.ret
          = some (Ret.failure Err.limitPerPageConflict)
      ∧ (ScrapeGoogleUrl demoEnv 5 "https://www.google.com/search?q=x"
            [some GoogleUrlOpts.zero]).opt ≠ GoogleUrlOpts.zero := by
  refine ⟨?_, by decide, by decide, by decide, by decide⟩
  intro h
  have h2 := congrArg GoogleSearchOpts.Limit h
  revert h2
  decide

/-- C10, amended: ScrapeGoogleSearch leaves the caller's options as they were
when it rejects them at the limit_per_page guard and otherwise writes the
defaults into them: Domain "" becomes "com", StartPage 0 becomes 1, Pages 0
becomes 1, Limit 0 becomes 48, UserAgent "" becomes "desktop", and every other
field and every non-zero value stays; so options with none of these fields zero
are unchanged.  ScrapeGoogleUrl leaves the options as they were when URL
validation fails and otherwise writes "desktop" into an empty UserAgent and
nothing else.  A second call with the struct left by the first behaves as the
first did whenever the first call was rejected by the guard or limit_per_page
is not set (for ScrapeGoogleUrl: always). -/
theorem options_after_call (env : Env) (fuel : Nat) (query url : String)
    (before : List (Option GoogleSearchOpts)) (o : GoogleSearchOpts)
    (beforeUrl : List (Option GoogleUrlOpts)) (u : GoogleUrlOpts) :
    (((o.Limit ≠ 0 ∨ o.StartPage ≠ 0 ∨ o.Pages ≠ 0)
        ∧ buildContext o.Context "limit_per_page" ≠ Value.nil) →
      (ScrapeGoogleSearch env fuel query (before ++ [some o])).opt = o)
    ∧ (¬ ((o.Limit ≠ 0 ∨ o.StartPage ≠ 0 ∨ o.Pages ≠ 0)
        ∧ buildContext o.Context "limit_per_page" ≠ Value.nil) →
      (ScrapeGoogleSearch env fuel query (before ++ [some o])).opt =
        { Domain := if o.Domain = "" then "com" else o.Domain,
          StartPage := if o.StartPage = 0 then 1 else o.StartPage,
          Pages := if o.Pages = 0 then 1 else o.Pages,
          Limit := if o.Limit = 0 then 48 else o.Limit,
          Geolocation := o.Geolocation,
          UserAgent := if o.UserAgent = "" then "desktop" else o.UserAgent,
          Parse := o.Parse, Render := o.Render, Context := o.Context })
    ∧ (o.Domain ≠ "" → o.StartPage ≠ 0 → o.Limit ≠ 0 → o.Pages ≠ 0 → o.UserAgent ≠ "" →
      (ScrapeGoogleSearch env fuel query (before ++ [some o])).opt = o)
    ∧ (ValidateURL env.parseRequestURI url "google" ≠ none →
      (ScrapeGoogleUrl env fuel url (beforeUrl ++ [some u])).opt = u)
    ∧ (ValidateURL env.parseRequestURI url "google" = none →
      (ScrapeGoogleUrl env fuel url (beforeUrl ++ [some u])).opt
        = { UserAgent := if u.UserAgent = "" then "desktop" else u.UserAgent,
            Render := u.Render, CallbackUrl := u.CallbackUrl, GeoLocation := u.GeoLocation,
            Parse := u.Parse })
    ∧ (u.UserAgent ≠ "" → (ScrapeGoogleUrl env fuel url (beforeUrl ++ [some u])).opt = u)
    ∧ (¬ (o.Limit = 0 ∧ o.StartPage = 0 ∧ o.Pages = 0
          ∧ buildContext o.Context "limit_per_page" ≠ Value.nil) →
      ScrapeGoogleSearch env fuel query
          (before ++ [some (ScrapeGoogleSearch env fuel query (before ++ [some o])).opt])
        = ScrapeGoogleSearch env fuel query (before ++ [some o]))
    ∧ ScrapeGoogleUrl env fuel url
          (beforeUrl ++ [some (ScrapeGoogleUrl env fuel url (beforeUrl ++ [some u])).opt])
        = ScrapeGoogleUrl env fuel url (beforeUrl ++ [some u]) := by
  have hS := ScrapeGoogleSearch_opt env fuel query (before ++ [some o])
  have hU := ScrapeGoogleUrl_opt env fuel url (beforeUrl ++ [some u])
  rw [lastOpt_concat] at hS hU
  refine ⟨?_, ?_, ?_, ?_, ?_, ?_, ?_, ?_⟩
  · intro hc; rw [hS, if_pos hc]
  · intro hc; rw [hS, if_neg hc]; rfl
  · intro h1 h2 h3 h4 h5
    rw [hS]
    split
    · rfl
    · simp [setSearchDefaults, SetDefaultDomain, SetDefaultStartPage, SetDefaultLimit,
        SetDefaultPages, SetDefaultUserAgent, h1, h2, h3, h4, h5]
  · intro hv; rw [hU, if_neg hv]
  · intro hv; rw [hU, if_pos hv]; rfl
  · intro h5
    rw [hU]
    split
    · simp [SetDefaultUserAgent, h5]
    · rfl
  · intro hex
    by_cases hc : (o.Limit ≠ 0 ∨ o.StartPage ≠ 0 ∨ o.Pages ≠ 0)
        ∧ buildContext o.Context "limit_per_page" ≠ Value.nil
    · rw [hS, if_pos hc]
    · rw [hS, if_neg hc]
      have hnil : buildContext o.Context "limit_per_page" = Value.nil := by
        by_contra hn
        apply hex
        refine ⟨?_, ?_, ?_, hn⟩
        · by_contra h0; exact hc ⟨Or.inl h0, hn⟩
        · by_contra h0; exact hc ⟨Or.inr (Or.inl h0), hn⟩
        · by_contra h0; exact hc ⟨Or.inr (Or.inr h0), hn⟩
      have hc1 : ¬ (((lastOpt GoogleSearchOpts.zero (before ++ [some o])).Limit ≠ 0
            ∨ (lastOpt GoogleSearchOpts.zero (before ++ [some o])).StartPage ≠ 0
            ∨ (lastOpt GoogleSearchOpts.zero (before ++ [some o])).Pages ≠ 0)
          ∧ buildContext (lastOpt GoogleSearchOpts.zero (before ++ [some o])).Context
              "limit_per_page" ≠ Value.nil) := by
        rw [lastOpt_concat]; exact hc
      have hc2 : ¬ (((lastOpt GoogleSearchOpts.zero
                (before ++ [some (setSearchDefaults o)])).Limit ≠ 0
            ∨ (lastOpt GoogleSearchOpts.zero (before ++ [some (setSearchDefaults o)])).StartPage ≠ 0
            ∨ (lastOpt GoogleSearchOpts.zero (before ++ [some (setSearchDefaults o)])).Pages ≠ 0)
          ∧ buildContext (lastOpt GoogleSearchOpts.zero
                (before ++ [some (setSearchDefaults o)])).Context "limit_per_page" ≠ Value.nil) := by
        rw [lastOpt_concat]
        intro hcc
        exact hcc.2 hnil
      rw [ScrapeGoogleSearch_of_no_conflict env fuel query _ hc1,
        ScrapeGoogleSearch_of_no_conflict env fuel query _ hc2]
      simp only [lastOpt_concat, setSearchDefaults_idem]
      rfl
  · rw [hU]
    unfold ScrapeGoogleUrl
    cases hv : ValidateURL env.parseRequestURI url "google" with
    | some e => simp [lastOpt_concat]
    | none =>
      simp only [if_true, lastOpt_concat, SetDefaultUserAgent_idem]

/-- C10 amended, at concrete options: options with no zero field are returned
unchanged, and a second call with them behaves as the first. -/
theorem options_after_call_witness :
    (ScrapeGoogleSearch demoEnv 5 "shoes" ([] ++ [some fullOpts])).opt = fullOpts
      ∧ ScrapeGoogleSearch demoEnv 5 "shoes"
          ([] ++ [some (ScrapeGoogleSearch demoEnv 5 "shoes" ([] ++ [some fullOpts])).opt])
        = ScrapeGoogleSearch demoEnv 5 "shoes" ([] ++ [some fullOpts]) :=
  have h := options_after_call demoEnv 5 "shoes" "https://www.google.com/" [] fullOpts []
    GoogleUrlOpts.zero
  ⟨h.2.2.1 (by decide) (by decide) (by decide) (by decide) (by decide),
    h.2.2.2.2.2.2.1 (by decide)⟩

/-! ## The poll loop -/

/-- C7: when the first poll reports "faulted", ScrapeGoogleSearch (past
validation and submission) makes exactly one poll call and no results fetch,
sends exactly one error, the fixed text "There was an error processing your
query", sends no value, closes the response channel, the goroutine returns,
and the entry point returns that error with a nil channel. -/
theorem faulted_first_poll (env : Env) (fuel : Nat) (query jsonPayload : String)
    (opts : List (Option GoogleSearchOpts)) (submitted body : JobPatch)
    (hguard : ¬ (((lastOpt GoogleSearchOpts.zero opts).Limit ≠ 0
          ∨ (lastOpt GoogleSearchOpts.zero opts).StartPage ≠ 0
          ∨ (lastOpt GoogleSearchOpts.zero opts).Pages ≠ 0)
        ∧ buildContext (lastOpt GoogleSearchOpts.zero opts).Context "limit_per_page" ≠ Value.nil))
    (hvalid : env.checkSearchParameters (setSearchDefaults (lastOpt GoogleSearchOpts.zero opts))
        (buildContext (lastOpt GoogleSearchOpts.zero opts).Context) = none)
    (hmarshal : env.marshal (searchPayload query
        (setSearchDefaults (lastOpt GoogleSearchOpts.zero opts))
        (buildContext (lastOpt GoogleSearchOpts.zero opts).Context)) = .ok jsonPayload)
    (hsubmit : env.submit jsonPayload = .ok (.object submitted))
    (hpoll : env.polls 0 = .ok (.object body)) (hstatus : body.Status = some "faulted") :
    (ScrapeGoogleSearch env (fuel + 1) query opts).stop = some Stop.returned
    ∧ (ScrapeGoogleSearch env (fuel + 1) query opts).state.trace =
        [Event.post jsonPayload, Event.poll (submitted.ID.getD ""),
         Event.sendErr Err.faulted, Event.closeResp]
    ∧ (ScrapeGoogleSearch env (fuel + 1) query opts).state.polls = 1
    ∧ (ScrapeGoogleSearch env (fuel + 1) query opts).state.fetches = 0
    ∧ (ScrapeGoogleSearch env (fuel + 1) query opts).state.ret = some (Ret.failure Err.faulted)
    ∧ Err.faulted.message = "There was an error processing your query" := by
  rw [ScrapeGoogleSearch_of_no_conflict env (fuel + 1) query opts hguard, hvalid]
  simp only [submitAndPoll, hmarshal, hsubmit, pollLoop]
  rw [iteration_of_faulted env _ body hpoll (Job.unmarshal_status _ _ _ hstatus) rfl rfl rfl]
  simp [PollState.start, Job.unmarshal, Err.message]

/-- C7, on a server that answers "faulted" to the first poll. -/
theorem faulted_first_poll_witness :
    (ScrapeGoogleSearch faultedEnv 1 "shoes" []).stop = some Stop.returned
    ∧ (ScrapeGoogleSearch faultedEnv 1 "shoes" []).state.trace =
        [Event.post "payload", Event.poll "7", Event.sendErr Err.faulted, Event.closeResp]
    ∧ (ScrapeGoogleSearch faultedEnv 1 "shoes" []).state.polls = 1
    ∧ (ScrapeGoogleSearch faultedEnv 1 "shoes" []).state.fetches = 0
    ∧ (ScrapeGoogleSearch faultedEnv 1 "shoes" []).state.ret = some (Ret.failure Err.faulted)
    ∧ Err.faulted.message = "There was an error processing your query" :=
  faulted_first_poll faultedEnv 0 "shoes" "payload" [] { ID := some "7", Status := some "pending" }
    { ID := none, Status := some "faulted" } (by decide) rfl rfl rfl rfl rfl

/-- C8: in a loop state in which no terminal event has happened yet, when the
poll leaves the job status "done" and the results fetch answers with a status
code other than 200, the goroutine makes that one poll and that one fetch,
sends the error "error with status code <status>: <body>" built from the
status line and the raw body, closes the response channel without sending a
value, and returns (so no further HTTP call is made); the entry point returns
that error; and the outcome is the same whatever the response decoder is. -/
theorem fetch_bad_status (env : Env) (fuel : Nat) (s : PollState) (body : JobPatch)
    (response : FetchResponse)
    (h1 : s.errClosed = false) (h2 : s.errReceived = false) (h3 : s.respClosed = false)
    (hpoll : env.polls s.polls = .ok (.object body))
    (hstatus : (s.job.unmarshal body).Status = "done")
    (hfetch : env.fetches s.fetches = .ok response)
    (hcode : response.StatusCode ≠ 200) :
    pollLoop env (fuel + 1) s =
      ({ s with job := s.job.unmarshal body, polls := s.polls + 1, fetches := s.fetches + 1,
                errReceived := true, respClosed := true,
                ret := some (Ret.failure (Err.statusCode response.Status response.Body)),
                trace := s.trace ++ [Event.poll s.job.ID, Event.fetch (s.job.unmarshal body).ID,
                  Event.sendErr (Err.statusCode response.Status response.Body),
                  Event.closeResp] }, some Stop.returned)
    ∧ (Err.statusCode response.Status response.Body).message
        = "error with status code " ++ response.Status ++ ": " ++ response.Body
    ∧ ∀ decoder, pollLoop { env with unmarshalResponse := decoder } (fuel + 1) s
        = pollLoop env (fuel + 1) s := by
  have key : ∀ env' : Env, env'.polls = env.polls → env'.fetches = env.fetches →
      pollLoop env' (fuel + 1) s =
        ({ s with job := s.job.unmarshal body, polls := s.polls + 1, fetches := s.fetches + 1,
                  errReceived := true, respClosed := true,
                  ret := some (Ret.failure (Err.statusCode response.Status response.Body)),
                  trace := s.trace ++ [Event.poll s.job.ID, Event.fetch (s.job.unmarshal body).ID,
                    Event.sendErr (Err.statusCode response.Status response.Body),
                    Event.closeResp] }, some Stop.returned) := by
    intro env' hp' hf'
    have hpoll' : env'.polls s.polls = .ok (.object body) := by rw [hp', hpoll]
    have hfetch' : env'.fetches s.fetches = .ok response := by rw [hf', hfetch]
    simp only [pollLoop]
    rw [iteration_of_ok env' s body hpoll', if_pos hstatus,
      doneBranch_of_bad_status env' _ response (by exact hfetch') hcode (by exact h1)
        (by exact h2) (by exact h3)]
    simp
  refine ⟨key env rfl rfl, rfl, fun decoder => ?_⟩
  rw [key env rfl rfl, key { env with unmarshalResponse := decoder } rfl rfl]

/-- C8, on a server whose results endpoint answers 500 to a finished job. -/
theorem fetch_bad_status_witness :
    pollLoop status500Env 1 (PollState.start { ID := "7", Status := "pending" } []) =
      ({ job := { ID := "7", Status := "done" }, errClosed := false, errReceived := true,
         respClosed := true,
         ret := some (Ret.failure (Err.statusCode "500 Internal Server Error" "oops")),
         polls := 1, fetches := 1, ticks := 0,
         trace := [Event.poll "7", Event.fetch "7",
           Event.sendErr (Err.statusCode "500 Internal Server Error" "oops"), Event.closeResp] },
       some Stop.returned) :=
  (fetch_bad_status status500Env 0 (PollState.start { ID := "7", Status := "pending" } [])
    { ID := none, Status := some "done" }
    { StatusCode := 500, Status := "500 Internal Server Error", Body := "oops" }
    rfl rfl rfl rfl rfl rfl (by decide)).1

/-- C9, refuted as stated: the submission is answered with status "done" and
every poll with a body that carries no status, so no poll response reports
"done" or "faulted", and the clock readings are non-decreasing; the job keeps
the status "done" through the first poll, and the loop fetches the results and
delivers a value in its first iteration instead of polling until the timeout. -/
theorem status_kept_from_submission :
    (∀ k, staleEnv.polls k = .ok (.object { ID := none, Status := none }))
      ∧ (∀ k, staleEnv.elapsed k ≤ staleEnv.elapsed (k + 1))
      ∧ (ScrapeGoogleSearch staleEnv 1 "shoes" []).state.trace =
          [Event.post "payload", Event.poll "7", Event.fetch "7", Event.closeErr,
           Event.sendResp { StatusCode := 200, Status := "200 OK", Results := "results" },
           Event.sleep 2]
      ∧ (ScrapeGoogleSearch staleEnv 1 "shoes" []).state.fetches = 1
      ∧ (ScrapeGoogleSearch staleEnv 1 "shoes" []).state.ret = some Ret.channel := by
  refine ⟨fun _ => rfl, fun k => ?_, by decide, by decide, by decide⟩
  show (2 : Int) * ((k : Int) + 1) ≤ 2 * (((k + 1 : Nat) : Int) + 1)
  push_cast
  omega

/-- C9, amended: when every poll the loop makes is answered with a body other
than null that leaves the job's status (a body without status keeps the status
the job had before, at first the one from the submission) different from "done"
and "faulted", and the clock at some reading passes the timeout budget, there
is a first reading N that exceeds the budget; the loop polls and sleeps once
per iteration for the N iterations before it (after any k ≤ N iterations it is
still running, having made k polls, no fetch and no channel operation), and in
iteration N + 1 it polls once more, sends the one error "timeout exceeded:
<budget>", closes the response channel and returns, with no results fetch and
no further poll; the entry point returns that error. -/
theorem timeout_after_pending (env : Env) (job : Job) (trace : List Event)
    (hpend : ∀ k, (∀ i, i < k → env.elapsed i ≤ env.DefaultTimeout) →
      ∃ body, env.polls k = .ok (.object body)
        ∧ ((jobAt env job k).unmarshal body).Status ≠ "done"
        ∧ ((jobAt env job k).unmarshal body).Status ≠ "faulted")
    (hclock : ∃ k, env.DefaultTimeout < env.elapsed k) :
    ∃ N, env.DefaultTimeout < env.elapsed N
      ∧ (∀ i, i < N → env.elapsed i ≤ env.DefaultTimeout)
      ∧ (∀ fuel, fuel ≤ N →
          pollLoop env fuel (PollState.start job trace) = (pendingState env job trace fuel, none))
      ∧ (∀ fuel, N < fuel →
          pollLoop env fuel (PollState.start job trace) =
            ({ job := jobAt env job (N + 1), errClosed := false, errReceived := true,
               respClosed := true,
               ret := some (Ret.failure (Err.timeout (env.showDuration env.DefaultTimeout))),
               polls := N + 1, fetches := 0, ticks := N + 1,
               trace := trace ++ pendingTrace env job N
                 ++ [Event.poll (jobAt env job N).ID,
                     Event.sendErr (Err.timeout (env.showDuration env.DefaultTimeout)),
                     Event.closeResp] }, some Stop.returned))
      ∧ (Err.timeout (env.showDuration env.DefaultTimeout)).message
          = "timeout exceeded: " ++ env.showDuration env.DefaultTimeout := by
  classical
  have hfirst : ∀ i, i < Nat.find hclock → env.elapsed i ≤ env.DefaultTimeout :=
    fun i hi => not_lt.mp (Nat.find_min hclock hi)
  have hpend' : ∀ k, k < Nat.find hclock → ∃ body, env.polls k = .ok (.object body)
      ∧ ((jobAt env job k).unmarshal body).Status ≠ "done"
      ∧ ((jobAt env job k).unmarshal body).Status ≠ "faulted" :=
    fun k hk => hpend k (fun i hi => hfirst i (Nat.lt_trans hi hk))
  refine ⟨Nat.find hclock, Nat.find_spec hclock, hfirst, ?_, ?_, rfl⟩
  · intro fuel hfuel
    have h := pollLoop_pending_steps env job trace (Nat.find hclock) hpend' hfirst fuel hfuel 0
    simpa [pollLoop] using h
  · intro fuel hfuel
    obtain ⟨f, rfl⟩ : ∃ f, fuel = Nat.find hclock + (f + 1) := ⟨fuel - Nat.find hclock - 1, by omega⟩
    rw [pollLoop_pending_steps env job trace (Nat.find hclock) hpend' hfirst _ (Nat.le_refl _)
      (f + 1)]
    obtain ⟨body, hp, hnd, hnf⟩ := hpend (Nat.find hclock) hfirst
    simp only [pollLoop]
    rw [iteration_of_pending_timeout env (pendingState env job trace (Nat.find hclock)) body hp
      hnd hnf (Nat.find_spec hclock) rfl rfl rfl, Step.andThen_some]
    simp [pendingState, jobAt, hp]

/-- C9 amended, on a server that answers every poll without a status to a job
whose submission said "pending", with clock readings 2, 4, 6, ... and budget
50: the loop is still running after 25 iterations and has ended with the
timeout error, never fetching results, after 26. -/
theorem timeout_after_pending_witness :
    (pollLoop silentEnv 25 (PollState.start { ID := "7", Status := "pending" } [])).2 = none
      ∧ (pollLoop silentEnv 26 (PollState.start { ID := "7", Status := "pending" } [])).2
          = some Stop.returned
      ∧ (pollLoop silentEnv 26 (PollState.start { ID := "7", Status := "pending" } [])).1.ret
          = some (Ret.failure (Err.timeout "50"))
      ∧ (pollLoop silentEnv 26 (PollState.start { ID := "7", Status := "pending" } [])).1.fetches
          = 0 := by
  have hjob : ∀ k, jobAt silentEnv { ID := "7", Status := "pending" } k
      = { ID := "7", Status := "pending" } := by
    intro k
    induction k with
    | zero => rfl
    | succ k ih =>
      show (jobAt silentEnv { ID := "7", Status := "pending" } k).unmarshal
        { ID := none, Status := none } = _
      rw [ih]
      rfl
  obtain ⟨N, hN, hfirst, hrun, hend, _⟩ :=
    timeout_after_pending silentEnv { ID := "7", Status := "pending" } []
      (fun k _ => ⟨{ ID := none, Status := none }, rfl, by rw [hjob k]; decide,
        by rw [hjob k]; decide⟩)
      ⟨25, by decide⟩
  have hle : N ≤ 25 := by
    by_contra hc
    have h25 := hfirst 25 (by omega)
    revert h25
    decide
  have hge : 25 ≤ N := by
    by_contra hc
    have hlt : N < 25 := by omega
    have h2 : silentEnv.elapsed N ≤ silentEnv.DefaultTimeout := by
      show (2 : Int) * ((N : Int) + 1) ≤ 50
      omega
    exact absurd hN (not_lt.mpr h2)
  have hN25 : N = 25 := by omega
  subst hN25
  rw [hrun 25 (Nat.le_refl _), hend 26 (by omega)]
  exact ⟨rfl, rfl, rfl, rfl⟩

/-- C1, the code on the poll statuses pending, pending, done (and done from
then on) with a results fetch that succeeds and a caller that receives the
value: after the third iteration the value has been delivered but the loop is
still running, and the fourth iteration polls again, fetches the results again
and panics in the second `close(errChan)`. -/
theorem poll_continues_after_success :
    (pollLoop demoEnv 3 (PollState.start { ID := "7", Status := "pending" } [])).2 = none
      ∧ (pollLoop demoEnv 3 (PollState.start { ID := "7", Status := "pending" } [])).1.trace =
          [Event.poll "7", Event.sleep 2, Event.poll "7", Event.sleep 2,
           Event.poll "7", Event.fetch "7", Event.closeErr,
           Event.sendResp { StatusCode := 200, Status := "200 OK", Results := "results" },
           Event.sleep 2]
      ∧ (pollLoop demoEnv 4 (PollState.start { ID := "7", Status := "pending" } [])).1.trace =
          [Event.poll "7", Event.sleep 2, Event.poll "7", Event.sleep 2,
           Event.poll "7", Event.fetch "7", Event.closeErr,
           Event.sendResp { StatusCode := 200, Status := "200 OK", Results := "results" },
           Event.sleep 2, Event.poll "7", Event.fetch "7"]
      ∧ (pollLoop demoEnv 4 (PollState.start { ID := "7", Status := "pending" } [])).1.polls = 4
      ∧ (pollLoop demoEnv 4 (PollState.start { ID := "7", Status := "pending" } [])).1.fetches = 2
      ∧ (pollLoop demoEnv 4 (PollState.start { ID := "7", Status := "pending" } [])).2
          = some (Stop.panicked "close of closed channel") := by
  decide

/-- C2, refuted as stated: after the failure path of a faulted job (one error
sent, response channel closed, goroutine returned) the error channel is not
closed; and after the success path (error channel closed, value delivered) the
response channel is not closed. -/
theorem channels_not_both_closed :
    (pollLoop faultedEnv 1 (PollState.start { ID := "7", Status := "pending" } [])).2
        = some Stop.returned
      ∧ chanOps (pollLoop faultedEnv 1
            (PollState.start { ID := "7", Status := "pending" } [])).1.trace
          = [Event.sendErr Err.faulted, Event.closeResp]
      ∧ (pollLoop faultedEnv 1
            (PollState.start { ID := "7", Status := "pending" } [])).1.errClosed = false
      ∧ chanOps (pollLoop demoEnv 3
            (PollState.start { ID := "7", Status := "pending" } [])).1.trace
          = [Event.closeErr,
             Event.sendResp { StatusCode := 200, Status := "200 OK", Results := "results" }]
      ∧ (pollLoop demoEnv 3
            (PollState.start { ID := "7", Status := "pending" } [])).1.respClosed = false := by
  decide

/-- C2, amended: from a state of the poll loop in which no terminal event has
happened, each path of one iteration does exactly the following channel
operations.  Failure paths (poll transport error, poll body-read error,
faulted, timeout, fetch transport error, fetch body-read error, non-200 fetch,
decode failure): the error of that path is sent once on the error channel and
received by the entry point, which returns it; no value is sent; the response
channel is then closed once and the goroutine returns; the error channel is
left open.  Success path: the error channel is closed once, so the entry point
returns the response channel, and then the value is sent once on the response
channel, which is not closed; when the caller never receives, the goroutine
stays blocked in that send.  An iteration that neither ends nor succeeds does
no channel operation.  And for every call that gets past submission in which
every request is built, no poll body is null and the clock passes the budget
within the iterations run, the channel operations of the whole run are one of
these three shapes. -/
theorem first_terminal_event (env : Env) (s : PollState)
    (h1 : s.errClosed = false) (h2 : s.errReceived = false) (h3 : s.respClosed = false)
    (h4 : s.ret = none) :
    (∀ e, env.polls s.polls = .transportErr e →
        FailedWith s.trace (Err.transport e) (iteration env s))
    ∧ (∀ e, env.polls s.polls = .readErr e →
        FailedWith s.trace (Err.readBody e) (iteration env s))
    ∧ (∀ body, env.polls s.polls = .ok (.object body) →
        (s.job.unmarshal body).Status = "faulted" →
        FailedWith s.trace Err.faulted (iteration env s))
    ∧ (∀ body, env.polls s.polls = .ok (.object body) →
        (s.job.unmarshal body).Status ≠ "done" → (s.job.unmarshal body).Status ≠ "faulted" →
        env.DefaultTimeout < env.elapsed s.ticks →
        FailedWith s.trace (Err.timeout (env.showDuration env.DefaultTimeout)) (iteration env s))
    ∧ (∀ body e, env.polls s.polls = .ok (.object body) →
        (s.job.unmarshal body).Status = "done" → env.fetches s.fetches = .transportErr e →
        FailedWith s.trace (Err.transport e) (iteration env s))
    ∧ (∀ body e, env.polls s.polls = .ok (.object body) →
        (s.job.unmarshal body).Status = "done" → env.fetches s.fetches = .readErr e →
        FailedWith s.trace (Err.readBody e) (iteration env s))
    ∧ (∀ body response, env.polls s.polls = .ok (.object body) →
        (s.job.unmarshal body).Status = "done" → env.fetches s.fetches = .ok response →
        response.StatusCode ≠ 200 →
        FailedWith s.trace (Err.statusCode response.Status response.Body) (iteration env s))
    ∧ (∀ body response e, env.polls s.polls = .ok (.object body) →
        (s.job.unmarshal body).Status = "done" → env.fetches s.fetches = .ok response →
        response.StatusCode = 200 → env.unmarshalResponse response.Body = .error e →
        FailedWith s.trace (Err.parseJSON e) (iteration env s))
    ∧ (∀ body response resp, env.polls s.polls = .ok (.object body) →
        (s.job.unmarshal body).Status = "done" → env.fetches s.fetches = .ok response →
        response.StatusCode = 200 → env.unmarshalResponse response.Body = .ok resp →
        env.callerReceives = true →
        DeliveredAs s.trace
          { resp with StatusCode := response.StatusCode, Status := response.Status }
          (iteration env s).1)
    ∧ (∀ body response resp, env.polls s.polls = .ok (.object body) →
        (s.job.unmarshal body).Status = "done" → env.fetches s.fetches = .ok response →
        response.StatusCode = 200 → env.unmarshalResponse response.Body = .ok resp →
        env.callerReceives = false →
        Unreceived env s.trace (iteration env s))
    ∧ (∀ body, env.polls s.polls = .ok (.object body) →
        (s.job.unmarshal body).Status ≠ "done" → (s.job.unmarshal body).Status ≠ "faulted" →
        env.elapsed s.ticks ≤ env.DefaultTimeout →
        (iteration env s).2 = none ∧ (iteration env s).1.Fresh
          ∧ chanOps (iteration env s).1.trace = chanOps s.trace)
    ∧ (∀ job trace0 fuel,
        (∀ k, env.polls k ≠ .noRequest ∧ env.polls k ≠ .ok JobBody.null) →
        (∀ k, env.fetches k ≠ .noRequest) →
        (∃ k, k < fuel ∧ env.DefaultTimeout < env.elapsed k) →
        (∃ e, FailedWith trace0 e (pollLoop env fuel (PollState.start job trace0)))
          ∨ (∃ resp, DeliveredAs trace0 resp (pollLoop env fuel (PollState.start job trace0)).1)
          ∨ Unreceived env trace0 (pollLoop env fuel (PollState.start job trace0))) := by
  have hdone : ∀ body, env.polls s.polls = .ok (.object body) →
      (s.job.unmarshal body).Status = "done" →
      iteration env s =
        Step.andThen (doneBranch env { s with polls := s.polls + 1, job := s.job.unmarshal body,
                                              trace := s.trace ++ [Event.poll s.job.ID] })
          (timeoutCheck env) := by
    intro body hp hst
    rw [iteration_of_ok env s body hp, if_pos hst]
  refine ⟨?_, ?_, ?_, ?_, ?_, ?_, ?_, ?_, ?_, ?_, ?_, ?_⟩
  · intro e hp
    exact iteration_failedWith_transport env s e h1 h2 h3 hp
  · intro e hp
    exact iteration_failedWith_readBody env s e h1 h2 h3 hp
  · intro body hp hst
    exact iteration_failedWith_faulted env s body h1 h2 h3 hp hst
  · intro body hp hnd hnf hgt
    exact iteration_failedWith_timeout env s body h1 h2 h3 hp hnd hnf hgt
  · intro body e hp hst hf
    rw [hdone body hp hst]
    exact (doneBranch_failedWith_transport env s.trace _ e (by exact h1) (by exact h2)
      (by exact h3) (chanOps_snoc_poll _ _) (by exact hf)).andThen _
  · intro body e hp hst hf
    rw [hdone body hp hst]
    exact (doneBranch_failedWith_readBody env s.trace _ e (by exact h1) (by exact h2)
      (by exact h3) (chanOps_snoc_poll _ _) (by exact hf)).andThen _
  · intro body response hp hst hf hcode
    rw [hdone body hp hst]
    exact (doneBranch_failedWith_statusCode env s.trace _ response (by exact h1) (by exact h2)
      (by exact h3) (chanOps_snoc_poll _ _) (by exact hf) hcode).andThen _
  · intro body response e hp hst hf hcode hd
    rw [hdone body hp hst]
    exact (doneBranch_failedWith_parseJSON env s.trace _ response e (by exact h1) (by exact h2)
      (by exact h3) (chanOps_snoc_poll _ _) (by exact hf) hcode hd).andThen _
  · intro body response resp hp hst hf hcode hd hr
    rw [hdone body hp hst, doneBranch_of_success env _ response resp (by exact h1) (by exact h2)
      (by exact h3) (by exact hf) hcode hd, if_pos hr, Step.andThen_none]
    refine timeoutCheck_deliveredAs env s.trace _ _ ⟨?_, rfl, rfl, h3⟩
    show chanOps (s.trace ++ [Event.poll s.job.ID] ++ [Event.fetch (s.job.unmarshal body).ID,
      Event.closeErr, Event.sendResp _]) = _
    rw [chanOps_append, chanOps_snoc_poll]
    rfl
  · intro body response resp hp hst hf hcode hd hr
    rw [hdone body hp hst, doneBranch_of_success env _ response resp (by exact h1) (by exact h2)
      (by exact h3) (by exact hf) hcode hd, if_neg (by rw [hr]; decide), Step.andThen_some]
    refine ⟨rfl, hr, ⟨rfl, h3, rfl⟩, ?_⟩
    show chanOps (s.trace ++ [Event.poll s.job.ID] ++ [Event.fetch (s.job.unmarshal body).ID,
      Event.closeErr]) = _
    rw [chanOps_append, chanOps_snoc_poll]
    rfl
  · intro body hp hnd hnf hle
    rw [iteration_of_pending env s body hp hnd hnf hle]
    refine ⟨rfl, ⟨h1, h2, h3, h4⟩, ?_⟩
    show chanOps (s.trace ++ [Event.poll s.job.ID, Event.sleep env.DefaultWaitTime]) = _
    rw [chanOps_append]
    simp [chanOps, Event.isChannelOp]
  · intro job trace0 fuel hpoll hfetch hclock
    have hstart : Running env trace0 0 (PollState.start job trace0) :=
      ⟨⟨rfl, rfl, rfl, rfl⟩, rfl, rfl, fun i hi => absurd hi (Nat.not_lt_zero i)⟩
    rcases pollLoop_running env trace0 fuel 0 (PollState.start job trace0) hstart hpoll hfetch
      with ⟨_, hrun⟩ | hfail | hdel | hunrec
    · obtain ⟨k, hk, hgt⟩ := hclock
      exact absurd hgt (not_lt.mpr (hrun.2.2.2 k (by omega)))
    · exact Or.inl hfail
    · obtain ⟨⟨e1, e2, e3⟩, resp, hc⟩ := hdel
      exact Or.inr (Or.inl ⟨resp, hc, e3, e1, e2⟩)
    · exact Or.inr (Or.inr hunrec)

/-- C2 amended, on a server that answers "faulted" to the first poll: the one
error sent is the faulted error, the response channel is closed after it and
the error channel stays open. -/
theorem first_terminal_event_witness :
    FailedWith [] Err.faulted
        (iteration faultedEnv (PollState.start { ID := "7", Status := "pending" } []))
      ∧ ((∃ e, FailedWith [] e
            (pollLoop faultedEnv 26 (PollState.start { ID := "7", Status := "pending" } [])))
        ∨ (∃ resp, DeliveredAs [] resp
            (pollLoop faultedEnv 26 (PollState.start { ID := "7", Status := "pending" } [])).1)
        ∨ Unreceived faultedEnv []
            (pollLoop faultedEnv 26 (PollState.start { ID := "7", Status := "pending" } []))) :=
  have h := first_terminal_event faultedEnv (PollState.start { ID := "7", Status := "pending" } [])
    rfl rfl rfl rfl
  ⟨h.2.2.1 { ID := none, Status := some "faulted" } rfl rfl,
    h.2.2.2.2.2.2.2.2.2.2.2 { ID := "7", Status := "pending" } [] 26
      (fun _ => ⟨fun h => HttpResult.noConfusion h,
          fun h => JobBody.noConfusion (HttpResult.ok.inj h)⟩)
      (fun _ => fun h => HttpResult.noConfusion h) ⟨25, by decide, by decide⟩⟩

end Oxylabs
